import Mathlib

/-!
# klyshko-cowgear-offline: the tuple-generation driver

A shallow embedding of `klyshko-mp-spdz-cowgear/generators/klyshko-cowgear-offline.cpp`.

The driver delegates field arithmetic, preprocessing, MAC checking, networking and the
file-name scheme to the MP-SPDZ library.  Those library calls are parameters of the
embedding (`System`, `ShareType`, `Preprocessing`, `MixedProtocolSet`); every theorem
quantifies over them.  What is embedded from the source is the driver itself: the order of
the calls, what is written to the output stream, and how the run ends.

Effects are explicit: a `World` carries the file system and the chronological list of the
calls the driver made (`trace`); the state of the protocol set is threaded separately.

Library calls are taken to return.  The failures that are modelled are those the driver
tests itself or that decide how a run ends: `mkdir_p` returning -1, `create_directory`
throwing, an output stream that fails to open (its writes are dropped, as for any
`std::ofstream`), and a MAC check that rejects (it throws `mac_fail`).
-/

namespace Klyshko

/-! ## Data model -/

/-- One byte of a file. -/
abbrev Byte := Nat

/-- The members of the library enum `Dtype` that the driver names. -/
inductive Dtype where
  | DATA_TRIPLE
  | DATA_SQUARE
  | DATA_BIT
  | DATA_INVERSE
  | DATA_DABIT
  deriving DecidableEq, Repr

/-- Which preprocessing object a call goes to: `set.preprocessing` or `set.binary.prep`. -/
inductive PrepId where
  | main
  | binary
  deriving DecidableEq, Repr

/-- Which MAC checker a call goes to: `set.output` or `set.binary.output`. -/
inductive CheckerId where
  | main
  | binary
  deriving DecidableEq, Repr

/-- The two fields the driver can initialise: `gfp_<1, 2>` and `gf2n_short` of degree 40. -/
inductive FieldId where
  | gfp
  | gf2n
  deriving DecidableEq, Repr

/-- What the driver prints on `cout` and `cerr`. -/
inductive Msg where
  | usage
  | generating (tuple_count : Int) (what : String)
  | wrote (tuple_count : Int) (what : String) (filename : String)
  | wrote_edabit (tuple_count : Int)
  | using_prime (prime : String)
  | directory_created (path : String)
  | no_prime_given
  | tuple_type_not_supported (tuple_type : String)
  | field_type_not_supported (field_type : String)
  deriving DecidableEq, Repr

/-- The calls of the driver that are observable from outside, in the order made. -/
inductive Event where
  | CowGearOptions
  | parse
  | cout (m : Msg)
  | cerr (m : Msg)
  | mkdir_p (dir : String) (ret : Int)
  | init_field (f : FieldId)
  | fs_exists (path : String) (ret : Bool)
  | create_directory (path : String)
  | names_init (player_id port : Int) (playerfile : String) (number_of_players : Int)
  | plain_player
  | write_setup (number_of_players : Int)
  | protocol_setup
  | open_file (filename : String) (ok : Bool)
  | close_file (filename : String)
  | get (p : PrepId) (tuple_type : Dtype)
  | get_dabit
  | get_edabitvec (strict : Bool) (n_bits : Int)
  | Check (c : CheckerId) (certified : Bool)
  deriving DecidableEq, Repr

/-- What can be thrown and is never caught in the driver. -/
inductive Exception where
  | runtime_error (what : String)
  | filesystem_error
  | mac_fail
  deriving DecidableEq, Repr

/-- How a run ends: `main` returns, `exit(code)` is called, or an exception escapes. -/
inductive Outcome where
  | returned
  | exited (code : Int)
  | uncaught (e : Exception)
  deriving DecidableEq, Repr

/-- The value of the C macro `EXIT_FAILURE`. -/
def EXIT_FAILURE : Int := 1

/-- The run ended otherwise than with exit status zero. -/
def Outcome.failed : Outcome → Bool
  | .returned => false
  | .exited code => code != 0
  | .uncaught _ => true

/-- The file system and the calls made so far. -/
structure World where
  fs : String → Option (List Byte)
  trace : List Event

/-- Record a call. -/
def World.emit (w : World) (e : Event) : World :=
  { w with trace := w.trace ++ [e] }

/-- A `std::array<T, E>`. -/
abbrev array (T : Type) (E : Nat) := { l : List T // l.length = E }

/-- A default-constructed `std::array<T, E>`. -/
def array.fresh {T : Type} (d : T) (E : Nat) : array T E :=
  ⟨List.replicate E d, List.length_replicate E d⟩

/-- The network setup `Names`, as filled by `N.init`. -/
structure Names where
  player_id : Int
  port : Int
  playerfile : String
  number_of_players : Int
  deriving DecidableEq, Repr

/-! ## The library, as parameters -/

/-- Result of `boost::filesystem::create_directory`: the directory was created, it was not
(the call returns false), or the call throws. -/
inductive CreateResult where
  | created
  | not_created
  | threw
  deriving DecidableEq, Repr

/-- The operating system and build configuration seen by the driver, with the library
table `DataPositions::dtype_names`. -/
structure System where
  PREP_DIR : String
  mkdir_p : String → Int
  fs_exists : String → Bool
  create_directory : String → CreateResult
  can_open : String → Bool
  dtype_names : Dtype → String

/-- The per-share-type static library functions: `file_signature<T>().output`,
`t.output(out, false)`, `Sub_Data_Files<T>::get_filename`,
`Sub_Data_Files<T>::get_edabit_filename`, `get_prep_sub_dir<T>`, and a default-constructed
value. -/
structure ShareType (T : Type) where
  dflt : T
  signature : List Byte
  output : T → List Byte
  get_filename : Names → Dtype → Int → String
  get_edabit_filename : Names → Int → Int → String
  get_prep_sub_dir : String → Int → String

/-- A `Preprocessing<T>&`: which object it refers to, and its `get(dtype, T* a)`, which
overwrites the array behind `a` and advances the state of the protocol set. -/
structure Preprocessing (S T : Type) where
  id : PrepId
  get : (E : Nat) → Dtype → S → array T E → array T E × S

/-- A `MixedProtocolSet<T>` with the state type `S` of everything behind it. -/
structure MixedProtocolSet where
  T : Type
  bit_type : Type
  edabitvec : Type
  S : Type
  share : ShareType T
  bit_share : ShareType bit_type
  preprocessing_get : (E : Nat) → Dtype → S → array T E → array T E × S
  binary_prep_get : (E : Nat) → Dtype → S → array bit_type E → array bit_type E × S
  get_dabit : S → T × bit_type → (T × bit_type) × S
  dabit_output : T × bit_type → List Byte
  get_edabitvec : Bool → Int → S → edabitvec × S
  edabit_output : Int → edabitvec → List Byte
  output_Check : S → Bool × S
  binary_output_Check : S → Bool × S
  construct : Names → S

/-- The member `set.preprocessing`. -/
def MixedProtocolSet.preprocessing (ps : MixedProtocolSet) : Preprocessing ps.S ps.T :=
  ⟨PrepId.main, ps.preprocessing_get⟩

/-- The member `set.binary.prep`. -/
def MixedProtocolSet.binary_prep (ps : MixedProtocolSet) : Preprocessing ps.S ps.bit_type :=
  ⟨PrepId.binary, ps.binary_prep_get⟩

/-! ## Output streams -/

/-- A `std::ofstream`: the file it was opened on and whether opening succeeded. -/
structure ofstream where
  filename : String
  is_open : Bool
  deriving DecidableEq, Repr

/-- The constructor `ofstream out(filename, ios::out | ios::binary)`: on success the file
exists and is empty; on failure the stream is bad and the file system is unchanged. -/
def ofstream.mk_open (sys : System) (filename : String) (w : World) : ofstream × World :=
  if sys.can_open filename then
    (⟨filename, true⟩,
      { fs := fun f => if f = filename then some [] else w.fs f,
        trace := w.trace ++ [Event.open_file filename true] })
  else
    (⟨filename, false⟩, w.emit (Event.open_file filename false))

/-- Writing to the stream: appended to the file when the stream is good, dropped otherwise. -/
def ofstream.write (out : ofstream) (bytes : List Byte) (w : World) : World :=
  if out.is_open then
    { w with fs := fun f => if f = out.filename then some ((w.fs f).getD [] ++ bytes) else w.fs f }
  else w

/-- Closing the stream, by `out.close()` or by the destructor at the end of the block. -/
def ofstream.close (out : ofstream) (w : World) : World :=
  w.emit (Event.close_file out.filename)

/-! ## `generate_tuples<T, ELEMENTS>` (lines 32-52) -/

/-- The inner loop `for (const T &t : tuple) t.output(out, false);`. -/
def output_tuple {T : Type} (io : ShareType T) (out : ofstream) : List T → World → World
  | [], w => w
  | t :: ts, w => output_tuple io out ts (out.write (io.output t) w)

/-- The loop `for (int i = 0; i < tuple_count; i++)`, by the number of iterations left. -/
def generate_loop {S T : Type} (E : Nat) (preprocessing : Preprocessing S T)
    (io : ShareType T) (out : ofstream) (tuple_type : Dtype) :
    Nat → S → array T E → World → S × array T E × World
  | 0, s, tuple, w => (s, tuple, w)
  | k + 1, s, tuple, w =>
    let r := preprocessing.get E tuple_type s tuple
    let w1 := w.emit (Event.get preprocessing.id tuple_type)
    let w2 := output_tuple io out r.1.val w1
    generate_loop E preprocessing io out tuple_type k r.2 r.1 w2

/-- The overload `generate_tuples<T, ELEMENTS>(preprocessing, tuple_type, tuple_count, tuple, N)`.
A loop `for (int i = 0; i < tuple_count; i++)` runs `tuple_count.toNat` times. -/
def generate_tuples_ELEMENTS {S T : Type} (sys : System) (E : Nat)
    (preprocessing : Preprocessing S T) (io : ShareType T) (tuple_type : Dtype)
    (tuple_count : Int) (tuple : array T E) (N : Names) (s : S) (w : World) : S × World :=
  let filename := io.get_filename N tuple_type 0
  let ow := ofstream.mk_open sys filename w
  let out := ow.1
  let w1 := out.write io.signature ow.2
  let w2 := w1.emit (Event.cout (Msg.generating tuple_count (sys.dtype_names tuple_type)))
  let r := generate_loop E preprocessing io out tuple_type tuple_count.toNat s tuple w2
  let w3 := r.2.2.emit (Event.cout (Msg.wrote tuple_count (sys.dtype_names tuple_type) filename))
  (r.1, out.close w3)

/-! ## `generate_tuples<T>` (lines 54-135) -/

/-- The loop of the `dabits` branch (lines 99-103). -/
def dabit_loop (ps : MixedProtocolSet) (out : ofstream) :
    Nat → ps.S → ps.T × ps.bit_type → World → ps.S × (ps.T × ps.bit_type) × World
  | 0, s, ab, w => (s, ab, w)
  | k + 1, s, ab, w =>
    let r := ps.get_dabit s ab
    let w1 := w.emit Event.get_dabit
    let w2 := out.write (ps.dabit_output r.1) w1
    dabit_loop ps out k r.2 r.1 w2

/-- The loop of the `edabits` branch (lines 115-119). -/
def edabit_loop (ps : MixedProtocolSet) (out : ofstream) (n_bits : Int) :
    Nat → ps.S → World → ps.S × World
  | 0, s, w => (s, w)
  | k + 1, s, w =>
    let r := ps.get_edabitvec true n_bits s
    let w1 := w.emit (Event.get_edabitvec true n_bits)
    let w2 := out.write (ps.edabit_output n_bits r.1) w1
    edabit_loop ps out n_bits k r.2 w2

/-- The `dabits` branch (lines 87-107). -/
def generate_dabits (sys : System) (ps : MixedProtocolSet) (N : Names) (tuple_count : Int)
    (s : ps.S) (w : World) : ps.S × World :=
  let filename := ps.share.get_filename N Dtype.DATA_DABIT 0
  let ow := ofstream.mk_open sys filename w
  let out := ow.1
  let w1 := out.write ps.share.signature ow.2
  let w2 := w1.emit (Event.cout (Msg.generating tuple_count (sys.dtype_names Dtype.DATA_DABIT)))
  let r := dabit_loop ps out tuple_count.toNat s (ps.share.dflt, ps.bit_share.dflt) w2
  let w3 := r.2.2.emit
    (Event.cout (Msg.wrote tuple_count (sys.dtype_names Dtype.DATA_DABIT) filename))
  (r.1, out.close w3)

/-- The `edabits` branch (lines 108-122); the stream is closed by its destructor. -/
def generate_edabits (sys : System) (ps : MixedProtocolSet) (N : Names) (tuple_count : Int)
    (n_bits : Int) (s : ps.S) (w : World) : ps.S × World :=
  let filename := ps.share.get_edabit_filename N n_bits 0
  let ow := ofstream.mk_open sys filename w
  let out := ow.1
  let w1 := out.write ps.share.signature ow.2
  let w2 := w1.emit (Event.cout (Msg.generating tuple_count "eDabit"))
  let r := edabit_loop ps out n_bits tuple_count.toNat s w2
  let w3 := r.2.emit (Event.cout (Msg.wrote_edabit tuple_count))
  (r.1, out.close w3)

/-- The dispatch on `tuple_type` (lines 60-127): `none` is the final `else`, where the
driver reports the unsupported tuple type and exits. -/
def generate_requested (sys : System) (ps : MixedProtocolSet) (N : Names) (tuple_count : Int)
    (tuple_type : String) (n_bits : Int) (s : ps.S) (w : World) : Option (ps.S × World) :=
  if tuple_type = "bits" then
    some (generate_tuples_ELEMENTS sys 1 ps.preprocessing ps.share Dtype.DATA_BIT tuple_count
      (array.fresh ps.share.dflt 1) N s w)
  else if tuple_type = "squares" then
    some (generate_tuples_ELEMENTS sys 2 ps.preprocessing ps.share Dtype.DATA_SQUARE tuple_count
      (array.fresh ps.share.dflt 2) N s w)
  else if tuple_type = "inverses" then
    some (generate_tuples_ELEMENTS sys 2 ps.preprocessing ps.share Dtype.DATA_INVERSE tuple_count
      (array.fresh ps.share.dflt 2) N s w)
  else if tuple_type = "triples" then
    some (generate_tuples_ELEMENTS sys 3 ps.preprocessing ps.share Dtype.DATA_TRIPLE tuple_count
      (array.fresh ps.share.dflt 3) N s w)
  else if tuple_type = "btriples" then
    some (generate_tuples_ELEMENTS sys 3 ps.binary_prep ps.bit_share Dtype.DATA_TRIPLE tuple_count
      (array.fresh ps.bit_share.dflt 3) N s w)
  else if tuple_type = "dabits" then
    some (generate_dabits sys ps N tuple_count s w)
  else if tuple_type = "edabits" then
    some (generate_edabits sys ps N tuple_count n_bits s w)
  else
    none

/-- The MAC check (lines 129-134).  `Check` throws `mac_fail` when it rejects; nothing in
the driver catches it. -/
def perform_mac_check (ps : MixedProtocolSet) (tuple_type : String) (s : ps.S) (w : World) :
    Outcome × ps.S × World :=
  if tuple_type = "btriples" then
    let r := ps.binary_output_Check s
    (if r.1 then Outcome.returned else Outcome.uncaught Exception.mac_fail, r.2,
      w.emit (Event.Check CheckerId.binary r.1))
  else
    let r := ps.output_Check s
    (if r.1 then Outcome.returned else Outcome.uncaught Exception.mac_fail, r.2,
      w.emit (Event.Check CheckerId.main r.1))

/-- The overload `generate_tuples<T>(set, P, N, tuple_count, tuple_type, n_bits)`. -/
def generate_tuples (sys : System) (ps : MixedProtocolSet) (N : Names) (tuple_count : Int)
    (tuple_type : String) (n_bits : Int) (s : ps.S) (w : World) : Outcome × ps.S × World :=
  match generate_requested sys ps N tuple_count tuple_type n_bits s w with
  | none =>
    (Outcome.exited EXIT_FAILURE, s,
      w.emit (Event.cerr (Msg.tuple_type_not_supported tuple_type)))
  | some r => perform_mac_check ps tuple_type r.1 r.2

/-! ## `main` (lines 137-343) -/

/-- The command line after `opt.parse`: for each option, the value given, if any.  Integer
options hold what `getInt` yields. -/
structure Options where
  number_of_parties : Option Int
  player : Option Int
  playerfile : Option String
  field_type : Option String
  prime : Option String
  tuple_type : Option String
  port : Option Int
  tuple_count : Option Int
  edabit_width : Option Int

/-- Lines 287-298 and 325-336: network setup, protocol set, tuple generation. -/
def network_and_generate (sys : System) (ps : MixedProtocolSet)
    (player_id number_of_players port tuple_count n_bits : Int)
    (tuple_type playerfile : String) (w : World) : Outcome × World :=
  let N : Names := ⟨player_id, port, playerfile, number_of_players⟩
  let w1 := w.emit (Event.names_init player_id port playerfile number_of_players)
  let w2 := w1.emit Event.plain_player
  let w3 := w2.emit (Event.write_setup number_of_players)
  let w4 := w3.emit Event.protocol_setup
  let r := generate_tuples sys ps N tuple_count tuple_type n_bits (ps.construct N) w4
  (r.1, r.2.2)

/-- Lines 273-279 and 311-317: the working directory is that of the bit type for
`btriples`, that of the share type otherwise. -/
def working_directory (sys : System) (ps : MixedProtocolSet) (tuple_type : String)
    (number_of_players : Int) : String :=
  if tuple_type = "btriples" then ps.bit_share.get_prep_sub_dir sys.PREP_DIR number_of_players
  else ps.share.get_prep_sub_dir sys.PREP_DIR number_of_players

/-- Lines 272-298 and 310-336, the same text in both field branches: the working
directory, then the network and the generation. -/
def field_branch (sys : System) (ps : MixedProtocolSet)
    (player_id number_of_players port tuple_count n_bits : Int)
    (tuple_type playerfile : String) (w : World) : Outcome × World :=
  let working_dir := working_directory sys ps tuple_type number_of_players
  let w1 := w.emit (Event.fs_exists working_dir (sys.fs_exists working_dir))
  if sys.fs_exists working_dir then
    network_and_generate sys ps player_id number_of_players port tuple_count n_bits
      tuple_type playerfile w1
  else
    let w2 := w1.emit (Event.create_directory working_dir)
    match sys.create_directory working_dir with
    | CreateResult.created =>
      network_and_generate sys ps player_id number_of_players port tuple_count n_bits
        tuple_type playerfile (w2.emit (Event.cout (Msg.directory_created working_dir)))
    | CreateResult.not_created =>
      network_and_generate sys ps player_id number_of_players port tuple_count n_bits
        tuple_type playerfile w2
    | CreateResult.threw => (Outcome.uncaught Exception.filesystem_error, w2)

/-- The program. -/
def main (sys : System) (gfp_set gf2n_set : MixedProtocolSet) (opt : Options) (w : World) :
    Outcome × World :=
  let w0 := (w.emit Event.CowGearOptions).emit Event.parse
  if opt.number_of_parties.isNone || opt.player.isNone || opt.field_type.isNone
      || opt.tuple_type.isNone then
    (Outcome.exited 0, w0.emit (Event.cout Msg.usage))
  else
    let player_id := opt.player.getD 0
    let number_of_players := opt.number_of_parties.getD 0
    let port := opt.port.getD 5000
    let n_bits := opt.edabit_width.getD 64
    let field_type := opt.field_type.getD ""
    let tuple_type := opt.tuple_type.getD ""
    let tuple_count := opt.tuple_count.getD 100000
    let playerfile := opt.playerfile.getD "players"
    let w1 := w0.emit (Event.mkdir_p sys.PREP_DIR (sys.mkdir_p sys.PREP_DIR))
    if sys.mkdir_p sys.PREP_DIR = -1 then
      (Outcome.uncaught (Exception.runtime_error
        ("cannot use " ++ sys.PREP_DIR ++ " (set another PREP_DIR in CONFIG when building if needed)")),
        w1)
    else if field_type = "gfp" then
      match opt.prime with
      | none => (Outcome.exited EXIT_FAILURE, w1.emit (Event.cerr Msg.no_prime_given))
      | some prime =>
        let w2 := (w1.emit (Event.cout (Msg.using_prime prime))).emit (Event.init_field FieldId.gfp)
        field_branch sys gfp_set player_id number_of_players port tuple_count n_bits
          tuple_type playerfile w2
    else if field_type = "gf2n" then
      field_branch sys gf2n_set player_id number_of_players port tuple_count n_bits
        tuple_type playerfile (w1.emit (Event.init_field FieldId.gf2n))
    else
      (Outcome.exited EXIT_FAILURE, w1.emit (Event.cerr (Msg.field_type_not_supported field_type)))

/-! ## Vocabulary of the claims -/

/-- A file system entry replaced: file `name` holds `content`, the other files are as in `w`. -/
def World.with_file (w : World) (name : String) (content : List Byte) : World :=
  { fs := fun f => if f = name then some content else w.fs f, trace := w.trace }

/-- A tuple-generation call: `preprocessing.get`, `get_dabit` or `get_edabitvec`. -/
def Event.is_generation : Event → Bool
  | .get _ _ => true
  | .get_dabit => true
  | .get_edabitvec _ _ => true
  | _ => false

/-- A MAC check, on either checker. -/
def Event.is_check : Event → Bool
  | .Check _ _ => true
  | _ => false

/-- An attempt to open an output file. -/
def Event.is_open_file : Event → Bool
  | .open_file _ _ => true
  | _ => false

/-- A step that touches a directory, a field, the network, a file or the protocol: all that
the driver does beyond option handling and printing. -/
def Event.is_work : Event → Bool
  | .CowGearOptions => false
  | .parse => false
  | .cout _ => false
  | .cerr _ => false
  | _ => true

/-- The seven tuple types the dispatch of `generate_tuples<T>` knows. -/
def supported_tuple_types : List String :=
  ["bits", "squares", "inverses", "triples", "btriples", "dabits", "edabits"]

/-- The five fixed-arity tuple kinds, written through `generate_tuples<T, ELEMENTS>`. -/
inductive FixedKind where
  | bits
  | squares
  | inverses
  | triples
  | btriples
  deriving DecidableEq, Repr

/-- The command-line name of a fixed-arity kind. -/
def FixedKind.name : FixedKind → String
  | .bits => "bits"
  | .squares => "squares"
  | .inverses => "inverses"
  | .triples => "triples"
  | .btriples => "btriples"

/-- The number of shares in one tuple of the kind. -/
def FixedKind.arity : FixedKind → Nat
  | .bits => 1
  | .squares => 2
  | .inverses => 2
  | .triples => 3
  | .btriples => 3

/-- What one fixed-arity kind is generated from: share type, array size, preprocessing
object, static share functions and `Dtype`. -/
structure KindInstance (S : Type) where
  T : Type
  E : Nat
  preprocessing : Preprocessing S T
  io : ShareType T
  dtype : Dtype

/-- The instantiation lines 61-86 choose for each fixed-arity kind. -/
def FixedKind.inst (ps : MixedProtocolSet) : FixedKind → KindInstance ps.S
  | .bits => ⟨ps.T, 1, ps.preprocessing, ps.share, Dtype.DATA_BIT⟩
  | .squares => ⟨ps.T, 2, ps.preprocessing, ps.share, Dtype.DATA_SQUARE⟩
  | .inverses => ⟨ps.T, 2, ps.preprocessing, ps.share, Dtype.DATA_INVERSE⟩
  | .triples => ⟨ps.T, 3, ps.preprocessing, ps.share, Dtype.DATA_TRIPLE⟩
  | .btriples => ⟨ps.bit_type, 3, ps.binary_prep, ps.bit_share, Dtype.DATA_TRIPLE⟩

/-- The output file of a kind instance. -/
def KindInstance.filename {S : Type} (ki : KindInstance S) (N : Names) : String :=
  ki.io.get_filename N ki.dtype 0

/-- The arrays returned by `n` successive `preprocessing.get` calls, in call order, starting
from state `s` and array `tuple`. -/
def successive_gets {S T : Type} (preprocessing : Preprocessing S T) (E : Nat) (dtype : Dtype) :
    Nat → S → array T E → List (array T E)
  | 0, _, _ => []
  | n + 1, s, tuple =>
    (preprocessing.get E dtype s tuple).1 ::
      successive_gets preprocessing E dtype n (preprocessing.get E dtype s tuple).2
        (preprocessing.get E dtype s tuple).1

/-- The state of the protocol set after `n` successive `preprocessing.get` calls. -/
def state_after_gets {S T : Type} (preprocessing : Preprocessing S T) (E : Nat) (dtype : Dtype) :
    Nat → S → array T E → S
  | 0, s, _ => s
  | n + 1, s, tuple =>
    state_after_gets preprocessing E dtype n (preprocessing.get E dtype s tuple).2
      (preprocessing.get E dtype s tuple).1

/-- The tuples of a batch of `n` of a kind instance: what the `n` calls return, each tuple
as the list of its shares. -/
def KindInstance.tuples {S : Type} (ki : KindInstance S) (n : Nat) (s : S) : List (List ki.T) :=
  (successive_gets ki.preprocessing ki.E ki.dtype n s (array.fresh ki.io.dflt ki.E)).map
    (fun a => a.val)

/-- The shares of a batch, tuple after tuple, each tuple in its own order. -/
def KindInstance.shares {S : Type} (ki : KindInstance S) (n : Nat) (s : S) : List ki.T :=
  (ki.tuples n s).flatten

/-- The field encodings of a list of shares, one after the other. -/
def encode_shares {T : Type} (io : ShareType T) (shares : List T) : List Byte :=
  shares.flatMap io.output

/-- The calls made between world `before` and world `after`. -/
def World.events_since (after before : World) : List Event :=
  after.trace.drop before.trace.length

/-- A step before the network setup: option handling, printing, directories, field
initialisation. -/
def Event.is_local : Event → Bool
  | .CowGearOptions => true
  | .parse => true
  | .cout _ => true
  | .cerr _ => true
  | .mkdir_p _ _ => true
  | .init_field _ => true
  | .fs_exists _ _ => true
  | .create_directory _ => true
  | _ => false

/-- The four required options `-N`, `-p`, `-ft`, `-tt` are all set. -/
def Options.required_set (opt : Options) : Bool :=
  opt.number_of_parties.isSome && opt.player.isSome && opt.field_type.isSome
    && opt.tuple_type.isSome

/-! ## A matching-kind reader -/

/-- Cut a list into pieces of `width` elements, the last one possibly shorter; `fuel` bounds
the number of pieces. -/
def split_every {α : Type} (width : Nat) : Nat → List α → List (List α)
  | 0, _ => []
  | _ + 1, [] => []
  | fuel + 1, x :: xs => (x :: xs).take width :: split_every width fuel ((x :: xs).drop width)

/-- Decode every element; fails when one element does not decode. -/
def decode_all {T : Type} (decode : List Byte → Option T) : List (List Byte) → Option (List T)
  | [] => some []
  | b :: bs =>
    match decode b, decode_all decode bs with
    | some t, some ts => some (t :: ts)
    | _, _ => none

/-- Modelled from the spec: the matching-kind reader of a tuple file, which is not part of
the driver.  It skips the signature header, splits the body into elements of the fixed
width of the field encoding, decodes them, and groups them by the arity of the kind. -/
def read_tuples {T : Type} (header_length width arity : Nat) (decode : List Byte → Option T)
    (file : List Byte) : Option (List (List T)) :=
  (decode_all decode (split_every width (file.drop header_length).length
      (file.drop header_length))).map
    (fun shares => split_every arity shares.length shares)

/-! ## A small concrete instance -/

/-- A system where `mkdir_p` returns `mkdir_ret`, the working directory exists, and every
file opens or not according to `open_ok`. -/
def demo_system (mkdir_ret : Int) (open_ok : Bool) : System :=
  { PREP_DIR := "Player-Data/"
    mkdir_p := fun _ => mkdir_ret
    fs_exists := fun _ => true
    create_directory := fun _ => CreateResult.created
    can_open := fun _ => open_ok
    dtype_names := fun _ => "" }

/-- Shares are numbers, encoded in one byte; the signature is the single byte `sig`. -/
def demo_share (sig : Byte) (file : String) : ShareType Nat :=
  { dflt := 0
    signature := [sig]
    output := fun t => [t]
    get_filename := fun _ _ _ => file
    get_edabit_filename := fun _ _ _ => file
    get_prep_sub_dir := fun dir _ => dir }

/-- The call number `s + 1` fills the array with `10 * (s + 1)`, `10 * (s + 1) + 1`, ... -/
def demo_get (E : Nat) (_ : Dtype) (s : Nat) (_ : array Nat E) : array Nat E × Nat :=
  (⟨(List.range E).map (fun i => 10 * (s + 1) + i), by simp⟩, s + 1)

/-- A protocol set over the demo shares whose MAC checks answer `certified`. -/
def demo_set (certified : Bool) : MixedProtocolSet :=
  { T := Nat
    bit_type := Nat
    edabitvec := List Nat
    S := Nat
    share := demo_share 7 "main"
    bit_share := demo_share 8 "binary"
    preprocessing_get := demo_get
    binary_prep_get := demo_get
    get_dabit := fun s _ => ((s + 1, s + 1), s + 1)
    dabit_output := fun ab => [ab.1, ab.2]
    get_edabitvec := fun _ _ s => ([s + 1], s + 1)
    edabit_output := fun _ v => v
    output_Check := fun s => (certified, s)
    binary_output_Check := fun s => (certified, s)
    construct := fun _ => 0 }

/-- Decoding of the demo encoding. -/
def demo_decode : List Byte → Option Nat
  | [b] => some b
  | _ => none

/-- No files, no calls yet. -/
def empty_world : World := ⟨fun _ => none, []⟩

/-- The network setup of player 0 of 2. -/
def demo_names : Names := ⟨0, 5000, "players", 2⟩

/-- The command line `-N 2 -p 0 -ft field_type -tt tuple_type -tc tuple_count`, with a prime. -/
def demo_options (field_type tuple_type : String) (tuple_count : Int) : Options :=
  { number_of_parties := some 2
    player := some 0
    playerfile := none
    field_type := some field_type
    prime := some "170141183460469231731687303715885907969"
    tuple_type := some tuple_type
    port := none
    tuple_count := some tuple_count
    edabit_width := none }

/-- The command line `-N 2 -p 0 -ft gfp -pr ... -tt edabits -tc 1 -ew 200`: the width 200
exceeds the 128 bits of the prime field. -/
def wide_edabit_options : Options :=
  { demo_options "gfp" "edabits" 1 with edabit_width := some 200 }

/-- The command line `-N 2 -ft gfp -pr ... -tt triples -tc 1`: the player index is missing. -/
def no_player_options : Options :=
  { demo_options "gfp" "triples" 1 with player := none }

/-- A system where `mkdir_p` succeeds, no directory exists yet, and creating one throws. -/
def no_directory_system : System :=
  { demo_system 0 true with
    fs_exists := fun _ => false
    create_directory := fun _ => CreateResult.threw }

/-! ## Streams and files -/

theorem emit_fs (w : World) (e : Event) : (w.emit e).fs = w.fs := rfl

theorem emit_trace (w : World) (e : Event) : (w.emit e).trace = w.trace ++ [e] := rfl

theorem with_file_fs_self (w : World) (name : String) (c : List Byte) :
    (w.with_file name c).fs name = some c := by
  simp [World.with_file]

theorem emit_with_file (w : World) (name : String) (c : List Byte) (e : Event) :
    (w.with_file name c).emit e = (w.emit e).with_file name c := rfl

theorem mk_open_good (sys : System) (name : String) (w : World)
    (h : sys.can_open name = true) :
    ofstream.mk_open sys name w
      = (⟨name, true⟩, (w.emit (Event.open_file name true)).with_file name []) := by
  simp [ofstream.mk_open, h, World.with_file, World.emit]

theorem mk_open_bad (sys : System) (name : String) (w : World)
    (h : sys.can_open name = false) :
    ofstream.mk_open sys name w = (⟨name, false⟩, w.emit (Event.open_file name false)) := by
  simp [ofstream.mk_open, h]

theorem write_good (name : String) (b c : List Byte) (w : World) :
    (ofstream.mk name true).write b (w.with_file name c) = w.with_file name (c ++ b) := by
  simp only [ofstream.write, World.with_file, if_true]
  congr 1
  funext f
  by_cases hf : f = name <;> simp [hf]

theorem write_bad (name : String) (b : List Byte) (w : World) :
    (ofstream.mk name false).write b w = w := by
  simp [ofstream.write]

theorem output_tuple_good {T : Type} (io : ShareType T) (name : String) (ts : List T) :
    ∀ (c : List Byte) (w : World),
      output_tuple io ⟨name, true⟩ ts (w.with_file name c)
        = w.with_file name (c ++ encode_shares io ts) := by
  induction ts with
  | nil => intro c w; simp [output_tuple, encode_shares]
  | cons t ts ih =>
    intro c w
    simp only [output_tuple, write_good, ih, encode_shares, List.flatMap_cons, List.append_assoc]

theorem output_tuple_bad {T : Type} (io : ShareType T) (name : String) (ts : List T) :
    ∀ (w : World), output_tuple io ⟨name, false⟩ ts w = w := by
  induction ts with
  | nil => intro w; rfl
  | cons t ts ih => intro w; simp only [output_tuple, write_bad, ih]

theorem write_trace (out : ofstream) (b : List Byte) (w : World) :
    (out.write b w).trace = w.trace := by
  unfold ofstream.write
  split <;> rfl

theorem output_tuple_trace {T : Type} (io : ShareType T) (out : ofstream) (ts : List T) :
    ∀ (w : World), (output_tuple io out ts w).trace = w.trace := by
  induction ts with
  | nil => intro w; rfl
  | cons t ts ih => intro w; simp only [output_tuple, ih, write_trace]

theorem mk_open_trace (sys : System) (name : String) (w : World) :
    (ofstream.mk_open sys name w).2.trace
      = w.trace ++ [Event.open_file name (sys.can_open name)] := by
  unfold ofstream.mk_open
  split <;> simp_all [World.emit]

/-! ## The loops -/

theorem generate_loop_state {S T : Type} (E : Nat) (pre : Preprocessing S T) (io : ShareType T)
    (out : ofstream) (dtype : Dtype) :
    ∀ (k : Nat) (s : S) (a : array T E) (w : World),
      (generate_loop E pre io out dtype k s a w).1 = state_after_gets pre E dtype k s a := by
  intro k
  induction k with
  | zero => intro s a w; rfl
  | succ k ih => intro s a w; simp only [generate_loop, state_after_gets, ih]

theorem generate_loop_trace {S T : Type} (E : Nat) (pre : Preprocessing S T) (io : ShareType T)
    (out : ofstream) (dtype : Dtype) :
    ∀ (k : Nat) (s : S) (a : array T E) (w : World),
      (generate_loop E pre io out dtype k s a w).2.2.trace
        = w.trace ++ List.replicate k (Event.get pre.id dtype) := by
  intro k
  induction k with
  | zero => intro s a w; simp [generate_loop]
  | succ k ih =>
    intro s a w
    simp only [generate_loop, ih, output_tuple_trace, World.emit, List.replicate_succ,
      List.append_assoc, List.singleton_append]

theorem generate_loop_good {S T : Type} (E : Nat) (pre : Preprocessing S T) (io : ShareType T)
    (name : String) (dtype : Dtype) :
    ∀ (k : Nat) (s : S) (a : array T E) (c : List Byte) (w : World),
      (generate_loop E pre io ⟨name, true⟩ dtype k s a (w.with_file name c)).2.2.fs
        = (w.with_file name (c ++ encode_shares io
            ((successive_gets pre E dtype k s a).map (fun x => x.val)).flatten)).fs := by
  intro k
  induction k with
  | zero => intro s a c w; simp [generate_loop, successive_gets, encode_shares]
  | succ k ih =>
    intro s a c w
    simp only [generate_loop, emit_with_file, output_tuple_good, ih, successive_gets,
      List.map_cons, List.flatten_cons, encode_shares, List.flatMap_append, List.append_assoc]
    rfl

theorem generate_loop_bad {S T : Type} (E : Nat) (pre : Preprocessing S T) (io : ShareType T)
    (name : String) (dtype : Dtype) :
    ∀ (k : Nat) (s : S) (a : array T E) (w : World),
      (generate_loop E pre io ⟨name, false⟩ dtype k s a w).2.2.fs = w.fs := by
  intro k
  induction k with
  | zero => intro s a w; rfl
  | succ k ih =>
    intro s a w
    simp only [generate_loop, output_tuple_bad, ih]
    rfl

theorem dabit_loop_trace (ps : MixedProtocolSet) (out : ofstream) :
    ∀ (k : Nat) (s : ps.S) (ab : ps.T × ps.bit_type) (w : World),
      (dabit_loop ps out k s ab w).2.2.trace = w.trace ++ List.replicate k Event.get_dabit := by
  intro k
  induction k with
  | zero => intro s ab w; simp [dabit_loop]
  | succ k ih =>
    intro s ab w
    simp only [dabit_loop, ih, write_trace, World.emit, List.replicate_succ,
      List.append_assoc, List.singleton_append]

theorem edabit_loop_trace (ps : MixedProtocolSet) (out : ofstream) (n_bits : Int) :
    ∀ (k : Nat) (s : ps.S) (w : World),
      (edabit_loop ps out n_bits k s w).2.trace
        = w.trace ++ List.replicate k (Event.get_edabitvec true n_bits) := by
  intro k
  induction k with
  | zero => intro s w; simp [edabit_loop]
  | succ k ih =>
    intro s w
    simp only [edabit_loop, ih, write_trace, World.emit, List.replicate_succ,
      List.append_assoc, List.singleton_append]

/-! ## `generate_tuples<T, ELEMENTS>` as a whole -/

theorem generate_tuples_ELEMENTS_state {S T : Type} (sys : System) (E : Nat)
    (pre : Preprocessing S T) (io : ShareType T) (dtype : Dtype) (tuple_count : Int)
    (tuple : array T E) (N : Names) (s : S) (w : World) :
    (generate_tuples_ELEMENTS sys E pre io dtype tuple_count tuple N s w).1
      = state_after_gets pre E dtype tuple_count.toNat s tuple := by
  simp only [generate_tuples_ELEMENTS, generate_loop_state]

theorem generate_tuples_ELEMENTS_trace {S T : Type} (sys : System) (E : Nat)
    (pre : Preprocessing S T) (io : ShareType T) (dtype : Dtype) (tuple_count : Int)
    (tuple : array T E) (N : Names) (s : S) (w : World) :
    (generate_tuples_ELEMENTS sys E pre io dtype tuple_count tuple N s w).2.trace
      = w.trace
        ++ [Event.open_file (io.get_filename N dtype 0) (sys.can_open (io.get_filename N dtype 0)),
            Event.cout (Msg.generating tuple_count (sys.dtype_names dtype))]
        ++ List.replicate tuple_count.toNat (Event.get pre.id dtype)
        ++ [Event.cout (Msg.wrote tuple_count (sys.dtype_names dtype) (io.get_filename N dtype 0)),
            Event.close_file (io.get_filename N dtype 0)] := by
  have hname : (ofstream.mk_open sys (io.get_filename N dtype 0) w).1.filename
      = io.get_filename N dtype 0 := by
    unfold ofstream.mk_open
    split <;> rfl
  simp only [generate_tuples_ELEMENTS, ofstream.close, World.emit, generate_loop_trace,
    write_trace, mk_open_trace, hname, List.append_assoc, List.singleton_append,
    List.cons_append, List.nil_append]

theorem generate_tuples_ELEMENTS_good {S T : Type} (sys : System) (E : Nat)
    (pre : Preprocessing S T) (io : ShareType T) (dtype : Dtype) (tuple_count : Int)
    (tuple : array T E) (N : Names) (s : S) (w : World)
    (h : sys.can_open (io.get_filename N dtype 0) = true) :
    (generate_tuples_ELEMENTS sys E pre io dtype tuple_count tuple N s w).2.fs
      = (w.with_file (io.get_filename N dtype 0) (io.signature ++ encode_shares io
          ((successive_gets pre E dtype tuple_count.toNat s tuple).map
            (fun x => x.val)).flatten)).fs := by
  simp only [generate_tuples_ELEMENTS, mk_open_good _ _ _ h, ofstream.close, write_good,
    emit_with_file, emit_fs, generate_loop_good, List.nil_append]
  rfl

theorem generate_tuples_ELEMENTS_bad {S T : Type} (sys : System) (E : Nat)
    (pre : Preprocessing S T) (io : ShareType T) (dtype : Dtype) (tuple_count : Int)
    (tuple : array T E) (N : Names) (s : S) (w : World)
    (h : sys.can_open (io.get_filename N dtype 0) = false) :
    (generate_tuples_ELEMENTS sys E pre io dtype tuple_count tuple N s w).2.fs = w.fs := by
  simp only [generate_tuples_ELEMENTS, mk_open_bad _ _ _ h, ofstream.close, write_bad,
    emit_fs, generate_loop_bad]

/-! ## The dispatch and the MAC check -/

theorem generate_requested_fixed (sys : System) (ps : MixedProtocolSet) (N : Names)
    (tuple_count n_bits : Int) (s : ps.S) (w : World) (k : FixedKind) :
    generate_requested sys ps N tuple_count k.name n_bits s w
      = some (generate_tuples_ELEMENTS sys (k.inst ps).E (k.inst ps).preprocessing (k.inst ps).io
          (k.inst ps).dtype tuple_count (array.fresh (k.inst ps).io.dflt (k.inst ps).E) N s w) := by
  cases k <;> rfl

theorem generate_tuples_of_some (sys : System) (ps : MixedProtocolSet) (N : Names)
    (tuple_count n_bits : Int) (tuple_type : String) (s : ps.S) (w : World) (r : ps.S × World)
    (h : generate_requested sys ps N tuple_count tuple_type n_bits s w = some r) :
    generate_tuples sys ps N tuple_count tuple_type n_bits s w
      = perform_mac_check ps tuple_type r.1 r.2 := by
  simp [generate_tuples, h]

theorem generate_tuples_of_none (sys : System) (ps : MixedProtocolSet) (N : Names)
    (tuple_count n_bits : Int) (tuple_type : String) (s : ps.S) (w : World)
    (h : generate_requested sys ps N tuple_count tuple_type n_bits s w = none) :
    generate_tuples sys ps N tuple_count tuple_type n_bits s w
      = (Outcome.exited EXIT_FAILURE, s,
          w.emit (Event.cerr (Msg.tuple_type_not_supported tuple_type))) := by
  simp [generate_tuples, h]

theorem perform_mac_check_fs (ps : MixedProtocolSet) (tuple_type : String) (s : ps.S)
    (w : World) : (perform_mac_check ps tuple_type s w).2.2.fs = w.fs := by
  unfold perform_mac_check
  split <;> rfl

theorem perform_mac_check_binary (ps : MixedProtocolSet) (s : ps.S) (w : World) :
    perform_mac_check ps "btriples" s w
      = (if (ps.binary_output_Check s).1 then Outcome.returned
          else Outcome.uncaught Exception.mac_fail,
        (ps.binary_output_Check s).2,
        w.emit (Event.Check CheckerId.binary (ps.binary_output_Check s).1)) := rfl

theorem perform_mac_check_main (ps : MixedProtocolSet) (tuple_type : String) (s : ps.S)
    (w : World) (h : tuple_type ≠ "btriples") :
    perform_mac_check ps tuple_type s w
      = (if (ps.output_Check s).1 then Outcome.returned
          else Outcome.uncaught Exception.mac_fail,
        (ps.output_Check s).2,
        w.emit (Event.Check CheckerId.main (ps.output_Check s).1)) := by
  simp [perform_mac_check, h]

/-- Whatever the tuple type, the check adds one `Check` event whose verdict decides the
outcome. -/
theorem perform_mac_check_shape (ps : MixedProtocolSet) (tuple_type : String) (s : ps.S)
    (w : World) :
    ∃ (c : CheckerId) (v : Bool),
      (perform_mac_check ps tuple_type s w).2.2.trace = w.trace ++ [Event.Check c v]
      ∧ (perform_mac_check ps tuple_type s w).1
          = (if v then Outcome.returned else Outcome.uncaught Exception.mac_fail)
      ∧ (c = CheckerId.binary ↔ tuple_type = "btriples") := by
  by_cases h : tuple_type = "btriples"
  · subst h
    exact ⟨CheckerId.binary, (ps.binary_output_Check s).1, rfl, rfl, by simp⟩
  · refine ⟨CheckerId.main, (ps.output_Check s).1, ?_, ?_, by simp [h]⟩
    · rw [perform_mac_check_main ps tuple_type s w h]; rfl
    · rw [perform_mac_check_main ps tuple_type s w h]

/-! ## Batches of a fixed-arity kind -/

theorem fixed_arity_E (ps : MixedProtocolSet) (k : FixedKind) : (k.inst ps).E = k.arity := by
  cases k <;> rfl

theorem fixed_arity_pos (k : FixedKind) : 0 < k.arity := by
  cases k <;> decide

theorem successive_gets_length {S T : Type} (pre : Preprocessing S T) (E : Nat) (dtype : Dtype) :
    ∀ (n : Nat) (s : S) (a : array T E), (successive_gets pre E dtype n s a).length = n := by
  intro n
  induction n with
  | zero => intro s a; rfl
  | succ n ih => intro s a; simp [successive_gets, ih]

theorem tuples_length {S : Type} (ki : KindInstance S) (n : Nat) (s : S) :
    (ki.tuples n s).length = n := by
  simp [KindInstance.tuples, successive_gets_length]

theorem tuples_arity {S : Type} (ki : KindInstance S) (n : Nat) (s : S) :
    ∀ t ∈ ki.tuples n s, t.length = ki.E := by
  intro t ht
  simp only [KindInstance.tuples, List.mem_map] at ht
  obtain ⟨a, _, rfl⟩ := ht
  exact a.property

theorem flatten_length_of_uniform {α : Type} (width : Nat) :
    ∀ (pieces : List (List α)), (∀ p ∈ pieces, p.length = width) →
      pieces.flatten.length = pieces.length * width := by
  intro pieces
  induction pieces with
  | nil => intro _; simp
  | cons p ps ih =>
    intro h
    have hp : p.length = width := h p (List.mem_cons_self p ps)
    have hps : ∀ q ∈ ps, q.length = width := fun q hq => h q (List.mem_cons_of_mem p hq)
    simp [ih hps, hp, Nat.succ_mul, Nat.add_comm]

theorem shares_length {S : Type} (ki : KindInstance S) (n : Nat) (s : S) :
    (ki.shares n s).length = n * ki.E := by
  unfold KindInstance.shares
  rw [flatten_length_of_uniform ki.E _ (tuples_arity ki n s), tuples_length]

/-- The file a fixed-arity run leaves, when it could be opened: the signature followed by
the encodings of all shares of the batch. -/
theorem generate_tuples_fixed_file (sys : System) (ps : MixedProtocolSet) (N : Names)
    (tuple_count n_bits : Int) (s : ps.S) (w : World) (k : FixedKind)
    (hopen : sys.can_open ((k.inst ps).filename N) = true) :
    (generate_tuples sys ps N tuple_count k.name n_bits s w).2.2.fs ((k.inst ps).filename N)
      = some ((k.inst ps).io.signature
          ++ encode_shares (k.inst ps).io ((k.inst ps).shares tuple_count.toNat s)) := by
  rw [generate_tuples_of_some _ _ _ _ _ _ _ _ _ (generate_requested_fixed sys ps N tuple_count
    n_bits s w k), perform_mac_check_fs, generate_tuples_ELEMENTS_good _ _ _ _ _ _ _ _ _ _ hopen]
  exact with_file_fs_self _ _ _

/-! ## Reading back -/

theorem split_every_flatten {α : Type} (width : Nat) (hw : 0 < width) :
    ∀ (pieces : List (List α)) (fuel : Nat), (∀ p ∈ pieces, p.length = width) →
      pieces.length ≤ fuel → split_every width fuel pieces.flatten = pieces := by
  intro pieces
  induction pieces with
  | nil =>
    intro fuel _ _
    cases fuel <;> rfl
  | cons p ps ih =>
    intro fuel h hfuel
    have hp : p.length = width := h p (List.mem_cons_self p ps)
    have hps : ∀ q ∈ ps, q.length = width := fun q hq => h q (List.mem_cons_of_mem p hq)
    cases fuel with
    | zero => simp at hfuel
    | succ fuel =>
      cases p with
      | nil => simp at hp; omega
      | cons x xs =>
        have hfuel2 : ps.length ≤ fuel := by simpa using hfuel
        rw [List.flatten_cons, List.cons_append, split_every, ← List.cons_append,
          List.take_left' hp, List.drop_left' hp, ih fuel hps hfuel2]

theorem decode_all_map {T : Type} (decode : List Byte → Option T) (output : T → List Byte)
    (h : ∀ t, decode (output t) = some t) :
    ∀ (ts : List T), decode_all decode (ts.map output) = some ts := by
  intro ts
  induction ts with
  | nil => rfl
  | cons t ts ih => simp [decode_all, h, ih]

theorem read_tuples_written {S : Type} (ki : KindInstance S) (n : Nat) (s : S) (width : Nat)
    (decode : List Byte → Option ki.T) (hE : 0 < ki.E) (hw : 0 < width)
    (hfix : ∀ t, (ki.io.output t).length = width)
    (hdec : ∀ t, decode (ki.io.output t) = some t) :
    read_tuples ki.io.signature.length width ki.E decode
        (ki.io.signature ++ encode_shares ki.io (ki.shares n s))
      = some (ki.tuples n s) := by
  have hpieces : ∀ p ∈ (ki.shares n s).map ki.io.output, p.length = width := by
    intro p hp
    simp only [List.mem_map] at hp
    obtain ⟨t, _, rfl⟩ := hp
    exact hfix t
  have hbody : encode_shares ki.io (ki.shares n s) = ((ki.shares n s).map ki.io.output).flatten :=
    rfl
  have hlen : ((ki.shares n s).map ki.io.output).length
      ≤ (((ki.shares n s).map ki.io.output).flatten).length := by
    rw [flatten_length_of_uniform width _ hpieces]
    exact Nat.le_mul_of_pos_right _ hw
  have hgroups : (ki.tuples n s).length ≤ (ki.shares n s).length := by
    rw [shares_length, tuples_length]
    exact Nat.le_mul_of_pos_right _ hE
  unfold read_tuples
  rw [List.drop_left, hbody, split_every_flatten width hw _ _ hpieces hlen,
    decode_all_map decode ki.io.output hdec, Option.map_some']
  congr 1
  exact split_every_flatten ki.E hE (ki.tuples n s) _ (tuples_arity ki n s) hgroups

/-! ## The events of a run of `generate_tuples<T>` -/

theorem events_since_append (w1 w : World) (new : List Event) (h : w1.trace = w.trace ++ new) :
    w1.events_since w = new := by
  simp [World.events_since, h]

theorem filter_replicate_true {α : Type} (p : α → Bool) (a : α) (n : Nat) (h : p a = true) :
    (List.replicate n a).filter p = List.replicate n a := by
  induction n with
  | zero => rfl
  | succ n ih => simp [List.replicate_succ, h, ih]

theorem filter_replicate_false {α : Type} (p : α → Bool) (a : α) (n : Nat) (h : p a = false) :
    (List.replicate n a).filter p = [] := by
  induction n with
  | zero => rfl
  | succ n ih => simp [List.replicate_succ, h, ih]

theorem mem_generation_events (e : Event) (f : String) (ok : Bool) (m1 m2 : Msg) (g : Event)
    (n : Nat)
    (he : e ∈ [Event.open_file f ok, Event.cout m1] ++ List.replicate n g
      ++ [Event.cout m2, Event.close_file f]) :
    e = Event.open_file f ok ∨ e = Event.cout m1 ∨ e = g ∨ e = Event.cout m2
      ∨ e = Event.close_file f := by
  simp only [List.mem_append, List.mem_cons, List.mem_singleton, List.not_mem_nil,
    or_false, List.mem_replicate] at he
  tauto

theorem mem_run_events (e : Event) (f : String) (ok : Bool) (m1 m2 : Msg) (g : Event) (n : Nat)
    (c : CheckerId) (v : Bool)
    (he : e ∈ [Event.open_file f ok, Event.cout m1] ++ List.replicate n g
      ++ [Event.cout m2, Event.close_file f] ++ [Event.Check c v]) :
    e = Event.open_file f ok ∨ e = Event.cout m1 ∨ e = g ∨ e = Event.cout m2
      ∨ e = Event.close_file f ∨ e = Event.Check c v := by
  simp only [List.mem_append, List.mem_cons, List.mem_singleton, List.not_mem_nil,
    or_false, List.mem_replicate] at he
  tauto

theorem generation_not_check (e : Event) (h : e.is_generation = true) : e.is_check = false := by
  cases e <;> simp_all [Event.is_generation, Event.is_check]

theorem mk_open_filename (sys : System) (name : String) (w : World) :
    (ofstream.mk_open sys name w).1.filename = name := by
  unfold ofstream.mk_open
  split <;> rfl

theorem generate_dabits_trace (sys : System) (ps : MixedProtocolSet) (N : Names)
    (tuple_count : Int) (s : ps.S) (w : World) :
    (generate_dabits sys ps N tuple_count s w).2.trace
      = w.trace ++ ([Event.open_file (ps.share.get_filename N Dtype.DATA_DABIT 0)
              (sys.can_open (ps.share.get_filename N Dtype.DATA_DABIT 0)),
            Event.cout (Msg.generating tuple_count (sys.dtype_names Dtype.DATA_DABIT))]
          ++ List.replicate tuple_count.toNat Event.get_dabit
          ++ [Event.cout (Msg.wrote tuple_count (sys.dtype_names Dtype.DATA_DABIT)
                (ps.share.get_filename N Dtype.DATA_DABIT 0)),
              Event.close_file (ps.share.get_filename N Dtype.DATA_DABIT 0)]) := by
  simp only [generate_dabits, ofstream.close, World.emit, dabit_loop_trace, write_trace,
    mk_open_trace, mk_open_filename, List.append_assoc, List.singleton_append,
    List.cons_append, List.nil_append]

theorem generate_edabits_trace (sys : System) (ps : MixedProtocolSet) (N : Names)
    (tuple_count n_bits : Int) (s : ps.S) (w : World) :
    (generate_edabits sys ps N tuple_count n_bits s w).2.trace
      = w.trace ++ ([Event.open_file (ps.share.get_edabit_filename N n_bits 0)
              (sys.can_open (ps.share.get_edabit_filename N n_bits 0)),
            Event.cout (Msg.generating tuple_count "eDabit")]
          ++ List.replicate tuple_count.toNat (Event.get_edabitvec true n_bits)
          ++ [Event.cout (Msg.wrote_edabit tuple_count),
              Event.close_file (ps.share.get_edabit_filename N n_bits 0)]) := by
  simp only [generate_edabits, ofstream.close, World.emit, edabit_loop_trace, write_trace,
    mk_open_trace, mk_open_filename, List.append_assoc, List.singleton_append,
    List.cons_append, List.nil_append]

theorem generate_dabits_empty (sys : System) (ps : MixedProtocolSet) (N : Names)
    (tuple_count : Int) (s : ps.S) (w : World) (h0 : tuple_count.toNat = 0)
    (hopen : sys.can_open (ps.share.get_filename N Dtype.DATA_DABIT 0) = true) :
    (generate_dabits sys ps N tuple_count s w).2.fs (ps.share.get_filename N Dtype.DATA_DABIT 0)
      = some ps.share.signature := by
  simp [generate_dabits, h0, dabit_loop, mk_open_good _ _ _ hopen, ofstream.write,
    ofstream.close, emit_fs, World.with_file]

theorem generate_edabits_empty (sys : System) (ps : MixedProtocolSet) (N : Names)
    (tuple_count n_bits : Int) (s : ps.S) (w : World) (h0 : tuple_count.toNat = 0)
    (hopen : sys.can_open (ps.share.get_edabit_filename N n_bits 0) = true) :
    (generate_edabits sys ps N tuple_count n_bits s w).2.fs
        (ps.share.get_edabit_filename N n_bits 0)
      = some ps.share.signature := by
  simp [generate_edabits, h0, edabit_loop, mk_open_good _ _ _ hopen, ofstream.write,
    ofstream.close, emit_fs, World.with_file]

/-- The signature written for a tuple type: that of the bit type for `btriples`, that of the
share type otherwise. -/
theorem fixed_signature (ps : MixedProtocolSet) (k : FixedKind) :
    (k.inst ps).io.signature
      = (if k.name = "btriples" then ps.bit_share.signature else ps.share.signature) := by
  cases k <;> rfl

/-- What the generation phase does for a supported tuple type: it opens one file `f`, makes
`tuple_count.toNat` generation calls `g`, and closes the file. -/
theorem generate_requested_shape (sys : System) (ps : MixedProtocolSet) (N : Names)
    (tuple_count n_bits : Int) (tuple_type : String) (s : ps.S) (w : World)
    (h : tuple_type ∈ supported_tuple_types) :
    ∃ (r : ps.S × World) (f : String) (m1 m2 : Msg) (g : Event),
      generate_requested sys ps N tuple_count tuple_type n_bits s w = some r
      ∧ r.2.trace = w.trace ++ ([Event.open_file f (sys.can_open f), Event.cout m1]
          ++ List.replicate tuple_count.toNat g ++ [Event.cout m2, Event.close_file f])
      ∧ g.is_generation = true
      ∧ (tuple_type = "btriples" → g = Event.get PrepId.binary Dtype.DATA_TRIPLE)
      ∧ (tuple_type = "edabits" → g = Event.get_edabitvec true n_bits)
      ∧ (tuple_count.toNat = 0 → sys.can_open f = true →
          r.2.fs f = some (if tuple_type = "btriples" then ps.bit_share.signature
            else ps.share.signature)) := by
  have fixed : ∀ k : FixedKind, tuple_type = k.name →
      ∃ (r : ps.S × World) (f : String) (m1 m2 : Msg) (g : Event),
      generate_requested sys ps N tuple_count tuple_type n_bits s w = some r
      ∧ r.2.trace = w.trace ++ ([Event.open_file f (sys.can_open f), Event.cout m1]
          ++ List.replicate tuple_count.toNat g ++ [Event.cout m2, Event.close_file f])
      ∧ g.is_generation = true
      ∧ (tuple_type = "btriples" → g = Event.get PrepId.binary Dtype.DATA_TRIPLE)
      ∧ (tuple_type = "edabits" → g = Event.get_edabitvec true n_bits)
      ∧ (tuple_count.toNat = 0 → sys.can_open f = true →
          r.2.fs f = some (if tuple_type = "btriples" then ps.bit_share.signature
            else ps.share.signature)) := by
    intro k hk
    subst hk
    refine ⟨_, (k.inst ps).filename N,
      Msg.generating tuple_count (sys.dtype_names (k.inst ps).dtype),
      Msg.wrote tuple_count (sys.dtype_names (k.inst ps).dtype) ((k.inst ps).filename N),
      Event.get (k.inst ps).preprocessing.id (k.inst ps).dtype,
      generate_requested_fixed sys ps N tuple_count n_bits s w k, ?_, rfl, ?_, ?_, ?_⟩
    · rw [generate_tuples_ELEMENTS_trace]
      simp only [KindInstance.filename, List.append_assoc]
    · intro hb
      cases k <;> first | rfl | (exact absurd hb (by decide))
    · intro hb
      cases k <;> exact absurd hb (by decide)
    · intro h0 hopen
      rw [generate_tuples_ELEMENTS_good _ _ _ _ _ _ _ _ _ _ hopen, h0, ← fixed_signature]
      simp [successive_gets, encode_shares, World.with_file, KindInstance.filename]
  simp only [supported_tuple_types, List.mem_cons, List.mem_singleton, List.not_mem_nil,
    or_false] at h
  rcases h with h | h | h | h | h | h | h
  · exact fixed FixedKind.bits h
  · exact fixed FixedKind.squares h
  · exact fixed FixedKind.inverses h
  · exact fixed FixedKind.triples h
  · exact fixed FixedKind.btriples h
  · subst h
    refine ⟨generate_dabits sys ps N tuple_count s w, _, _, _, Event.get_dabit, rfl,
      generate_dabits_trace sys ps N tuple_count s w, rfl, ?_, ?_, ?_⟩
    · intro hb; exact absurd hb (by decide)
    · intro hb; exact absurd hb (by decide)
    · intro h0 hopen
      rw [generate_dabits_empty sys ps N tuple_count s w h0 hopen]
      simp
  · subst h
    refine ⟨generate_edabits sys ps N tuple_count n_bits s w, _, _, _,
      Event.get_edabitvec true n_bits, rfl,
      generate_edabits_trace sys ps N tuple_count n_bits s w, rfl, ?_, ?_, ?_⟩
    · intro hb; exact absurd hb (by decide)
    · intro _; rfl
    · intro h0 hopen
      rw [generate_edabits_empty sys ps N tuple_count n_bits s w h0 hopen]
      simp

/-- A run of `generate_tuples<T>` for a supported tuple type: the generation phase, then one
MAC check whose verdict decides the outcome. -/
theorem generate_tuples_shape (sys : System) (ps : MixedProtocolSet) (N : Names)
    (tuple_count n_bits : Int) (tuple_type : String) (s : ps.S) (w : World)
    (h : tuple_type ∈ supported_tuple_types) :
    ∃ (f : String) (m1 m2 : Msg) (g : Event) (c : CheckerId) (v : Bool),
      (generate_tuples sys ps N tuple_count tuple_type n_bits s w).2.2.trace
        = w.trace ++ ([Event.open_file f (sys.can_open f), Event.cout m1]
          ++ List.replicate tuple_count.toNat g ++ [Event.cout m2, Event.close_file f]
          ++ [Event.Check c v])
      ∧ (generate_tuples sys ps N tuple_count tuple_type n_bits s w).1
          = (if v then Outcome.returned else Outcome.uncaught Exception.mac_fail)
      ∧ g.is_generation = true
      ∧ (c = CheckerId.binary ↔ tuple_type = "btriples")
      ∧ (tuple_type = "btriples" → g = Event.get PrepId.binary Dtype.DATA_TRIPLE)
      ∧ (tuple_type = "edabits" → g = Event.get_edabitvec true n_bits)
      ∧ (tuple_count.toNat = 0 → sys.can_open f = true →
          (generate_tuples sys ps N tuple_count tuple_type n_bits s w).2.2.fs f
            = some (if tuple_type = "btriples" then ps.bit_share.signature
              else ps.share.signature)) := by
  obtain ⟨r, f, m1, m2, g, hr, htrace, hg, hb, he, hfs⟩ :=
    generate_requested_shape sys ps N tuple_count n_bits tuple_type s w h
  obtain ⟨c, v, hct, hco, hcb⟩ := perform_mac_check_shape ps tuple_type r.1 r.2
  rw [generate_tuples_of_some sys ps N tuple_count n_bits tuple_type s w r hr]
  refine ⟨f, m1, m2, g, c, v, ?_, hco, hg, hcb, hb, he, ?_⟩
  · rw [hct, htrace]
    simp only [List.append_assoc]
  · intro h0 hopen
    rw [perform_mac_check_fs]
    exact hfs h0 hopen

/-- A run of `generate_tuples<T>` for a fixed-arity kind, with the generation call named. -/
theorem generate_tuples_fixed_trace (sys : System) (ps : MixedProtocolSet) (N : Names)
    (tuple_count n_bits : Int) (s : ps.S) (w : World) (k : FixedKind) :
    ∃ (c : CheckerId) (v : Bool),
      (generate_tuples sys ps N tuple_count k.name n_bits s w).2.2.trace
        = w.trace ++ ([Event.open_file ((k.inst ps).filename N)
                (sys.can_open ((k.inst ps).filename N)),
              Event.cout (Msg.generating tuple_count (sys.dtype_names (k.inst ps).dtype))]
          ++ List.replicate tuple_count.toNat
              (Event.get (k.inst ps).preprocessing.id (k.inst ps).dtype)
          ++ [Event.cout (Msg.wrote tuple_count (sys.dtype_names (k.inst ps).dtype)
                ((k.inst ps).filename N)),
              Event.close_file ((k.inst ps).filename N)]
          ++ [Event.Check c v])
      ∧ (generate_tuples sys ps N tuple_count k.name n_bits s w).1
          = (if v then Outcome.returned else Outcome.uncaught Exception.mac_fail) := by
  rw [generate_tuples_of_some _ _ _ _ _ _ _ _ _ (generate_requested_fixed sys ps N tuple_count
    n_bits s w k)]
  obtain ⟨c, v, hct, hco, _⟩ := perform_mac_check_shape ps k.name
    (generate_tuples_ELEMENTS sys (k.inst ps).E (k.inst ps).preprocessing (k.inst ps).io
      (k.inst ps).dtype tuple_count (array.fresh (k.inst ps).io.dflt (k.inst ps).E) N s w).1
    (generate_tuples_ELEMENTS sys (k.inst ps).E (k.inst ps).preprocessing (k.inst ps).io
      (k.inst ps).dtype tuple_count (array.fresh (k.inst ps).io.dflt (k.inst ps).E) N s w).2
  refine ⟨c, v, ?_, hco⟩
  rw [hct, generate_tuples_ELEMENTS_trace]
  simp only [KindInstance.filename, List.append_assoc]

/-! ## Claims about `generate_tuples` -/

/-- C1: for each of the five fixed-arity kinds (bits 1, squares 2, inverses 2, triples 3,
btriples 3) and every tuple count `n`, the output file that `generate_tuples` leaves (when
it could be opened) holds exactly the signature header followed by the field encodings of
the shares returned by the `n` successive `preprocessing.get` calls, in call order and in
within-tuple order, with nothing between or after; these are `n * arity` shares, and the
run makes exactly `n` generation calls. -/
theorem C1_fixed_arity_file_contents (sys : System) (ps : MixedProtocolSet) (N : Names)
    (n : Nat) (n_bits : Int) (s : ps.S) (w : World) (k : FixedKind)
    (hopen : sys.can_open ((k.inst ps).filename N) = true) :
    (generate_tuples sys ps N (n : Int) k.name n_bits s w).2.2.fs ((k.inst ps).filename N)
        = some ((k.inst ps).io.signature
            ++ encode_shares (k.inst ps).io ((k.inst ps).shares n s))
      ∧ ((k.inst ps).shares n s).length = n * k.arity
      ∧ ((generate_tuples sys ps N (n : Int) k.name n_bits s w).2.2.events_since w).filter
            Event.is_generation
          = List.replicate n (Event.get (k.inst ps).preprocessing.id (k.inst ps).dtype) := by
  refine ⟨?_, ?_, ?_⟩
  · have h := generate_tuples_fixed_file sys ps N (n : Int) n_bits s w k hopen
    simpa using h
  · rw [shares_length, fixed_arity_E]
  · obtain ⟨c, v, htrace, _⟩ := generate_tuples_fixed_trace sys ps N (n : Int) n_bits s w k
    rw [events_since_append _ w _ htrace]
    simp [List.filter_append, Event.is_generation, filter_replicate_true]

/-- Witness of C1: two triples of the demo set give the header and six encodings; a batch
of 100 triples has 300 shares. -/
theorem C1_fixed_arity_file_contents_witness :
    (demo_system 0 true).can_open ((FixedKind.triples.inst (demo_set true)).filename demo_names)
        = true
      ∧ (generate_tuples (demo_system 0 true) (demo_set true) demo_names 2 "triples" 64
          (0 : Nat) empty_world).2.2.fs "main" = some [7, 10, 11, 12, 20, 21, 22]
      ∧ ((FixedKind.triples.inst (demo_set true)).shares 100 (0 : Nat)).length = 100 * 3 :=
  ⟨rfl, (C1_fixed_arity_file_contents (demo_system 0 true) (demo_set true) demo_names 2 64
    (0 : Nat) empty_world FixedKind.triples rfl).1,
    (C1_fixed_arity_file_contents (demo_system 0 true) (demo_set true) demo_names 100 64
    (0 : Nat) empty_world FixedKind.triples rfl).2.1⟩

/-- C2: for every supported tuple type and every tuple count, the events of a run of
`generate_tuples` are the generation phase followed by exactly one MAC check: the check is the
last event, no check occurs in the generation phase, and the generation phase holds all
`tuple_count.toNat` generation calls. -/
theorem C2_mac_check_once_after_generation (sys : System) (ps : MixedProtocolSet) (N : Names)
    (tuple_count n_bits : Int) (tuple_type : String) (s : ps.S) (w : World)
    (h : tuple_type ∈ supported_tuple_types) :
    ∃ (generation : List Event) (c : CheckerId) (v : Bool),
      (generate_tuples sys ps N tuple_count tuple_type n_bits s w).2.2.events_since w
          = generation ++ [Event.Check c v]
        ∧ (∀ e ∈ generation, e.is_check = false)
        ∧ (generation.filter Event.is_generation).length = tuple_count.toNat := by
  obtain ⟨f, m1, m2, g, c, v, htrace, _, hg, _, _, _, _⟩ :=
    generate_tuples_shape sys ps N tuple_count n_bits tuple_type s w h
  refine ⟨_, c, v, events_since_append _ w _ htrace, ?_, ?_⟩
  · intro e he
    rcases mem_generation_events e f _ m1 m2 g _ he with h1 | h1 | h1 | h1 | h1
    · subst h1; rfl
    · subst h1; rfl
    · subst h1; exact generation_not_check _ hg
    · subst h1; rfl
    · subst h1; rfl
  · simp [List.filter_append, Event.is_generation, filter_replicate_true _ _ _ hg]

/-- Witness of C2: three `dabits` of the demo set. -/
theorem C2_mac_check_once_after_generation_witness :
    "dabits" ∈ supported_tuple_types
      ∧ ∃ (generation : List Event) (c : CheckerId) (v : Bool),
        (generate_tuples (demo_system 0 true) (demo_set true) demo_names 3 "dabits" 64
            (0 : Nat) empty_world).2.2.events_since empty_world
          = generation ++ [Event.Check c v]
        ∧ (∀ e ∈ generation, e.is_check = false)
        ∧ (generation.filter Event.is_generation).length = (3 : Int).toNat :=
  ⟨by decide, C2_mac_check_once_after_generation (demo_system 0 true) (demo_set true)
    demo_names 3 64 "dabits" (0 : Nat) empty_world (by decide)⟩

/-- C3, counterexample: one triple over gf2n with a rejecting MAC check.  The run ends with
the uncaught `mac_fail`, and the three shares of the rejected batch are in the output file. -/
theorem C3_counterexample_rejected_batch_in_file :
    (main (demo_system 0 true) (demo_set false) (demo_set false)
        (demo_options "gf2n" "triples" 1) empty_world).1 = Outcome.uncaught Exception.mac_fail
      ∧ Event.Check CheckerId.main false
          ∈ (main (demo_system 0 true) (demo_set false) (demo_set false)
              (demo_options "gf2n" "triples" 1) empty_world).2.trace
      ∧ (main (demo_system 0 true) (demo_set false) (demo_set false)
          (demo_options "gf2n" "triples" 1) empty_world).2.fs "main" = some [7, 10, 11, 12] := by
  decide

/-- C3, amended: in every run of a fixed-arity kind whose MAC check rejects the batch, the
run ends with the uncaught `mac_fail` of the check, and the output file (when it could be
opened) holds the signature header followed by the encodings of all `n * arity` shares of
the batch: the tuples are written before the check and a rejection removes nothing. -/
theorem C3_rejected_batch_stays_written (sys : System) (ps : MixedProtocolSet) (N : Names)
    (n : Nat) (n_bits : Int) (s : ps.S) (w : World) (k : FixedKind)
    (hopen : sys.can_open ((k.inst ps).filename N) = true)
    (hrej : ∃ c, Event.Check c false
      ∈ (generate_tuples sys ps N (n : Int) k.name n_bits s w).2.2.events_since w) :
    (generate_tuples sys ps N (n : Int) k.name n_bits s w).1
        = Outcome.uncaught Exception.mac_fail
      ∧ (generate_tuples sys ps N (n : Int) k.name n_bits s w).2.2.fs ((k.inst ps).filename N)
        = some ((k.inst ps).io.signature
            ++ encode_shares (k.inst ps).io ((k.inst ps).shares n s)) := by
  refine ⟨?_, ?_⟩
  · obtain ⟨c, v, htrace, hout⟩ := generate_tuples_fixed_trace sys ps N (n : Int) n_bits s w k
    obtain ⟨c0, hc0⟩ := hrej
    rw [events_since_append _ w _ htrace] at hc0
    rcases mem_run_events _ _ _ _ _ _ _ _ _ hc0 with h1 | h1 | h1 | h1 | h1 | h1
    · cases h1
    · cases h1
    · cases h1
    · cases h1
    · cases h1
    · cases h1
      rw [hout]
      rfl
  · have h := generate_tuples_fixed_file sys ps N (n : Int) n_bits s w k hopen
    simpa using h

/-- Witness of C3 as amended: two squares of the demo set, rejected. -/
theorem C3_rejected_batch_stays_written_witness :
    (generate_tuples (demo_system 0 true) (demo_set false) demo_names 2 "squares" 64
          (0 : Nat) empty_world).1 = Outcome.uncaught Exception.mac_fail
      ∧ (generate_tuples (demo_system 0 true) (demo_set false) demo_names 2 "squares" 64
          (0 : Nat) empty_world).2.2.fs "main" = some [7, 10, 11, 20, 21] :=
  C3_rejected_batch_stays_written (demo_system 0 true) (demo_set false) demo_names 2 64
    (0 : Nat) empty_world FixedKind.squares rfl ⟨CheckerId.main, by decide⟩

/-- C8: for every fixed-arity kind and every batch of `n` tuples, given a field encoding of
fixed positive width whose decoding undoes its encoding, the matching-kind reader (skip the
signature header, split the body into elements of that width, decode, group by the arity of
the kind) applied to the file written by `generate_tuples` yields exactly the `n` generated
tuples, in the same order. -/
theorem C8_round_trip (sys : System) (ps : MixedProtocolSet) (N : Names) (n : Nat)
    (n_bits : Int) (s : ps.S) (w : World) (k : FixedKind) (width : Nat)
    (decode : List Byte → Option (k.inst ps).T)
    (hopen : sys.can_open ((k.inst ps).filename N) = true)
    (hw : 0 < width)
    (hfix : ∀ t, ((k.inst ps).io.output t).length = width)
    (hdec : ∀ t, decode ((k.inst ps).io.output t) = some t) :
    ∃ file : List Byte,
      (generate_tuples sys ps N (n : Int) k.name n_bits s w).2.2.fs ((k.inst ps).filename N)
          = some file
        ∧ read_tuples (k.inst ps).io.signature.length width k.arity decode file
          = some ((k.inst ps).tuples n s)
        ∧ ((k.inst ps).tuples n s).length = n := by
  refine ⟨(k.inst ps).io.signature ++ encode_shares (k.inst ps).io ((k.inst ps).shares n s),
    ?_, ?_, tuples_length _ n s⟩
  · have h := generate_tuples_fixed_file sys ps N (n : Int) n_bits s w k hopen
    simpa using h
  · rw [← fixed_arity_E ps k]
    exact read_tuples_written (k.inst ps) n s width decode
      (by rw [fixed_arity_E]; exact fixed_arity_pos k) hw hfix hdec

/-- Witness of C8: two binary triples of the demo set, one byte per share. -/
theorem C8_round_trip_witness :
    ∃ file : List Byte,
      (generate_tuples (demo_system 0 true) (demo_set true) demo_names ((2 : Nat) : Int)
            FixedKind.btriples.name 64 (0 : Nat) empty_world).2.2.fs
          ((FixedKind.btriples.inst (demo_set true)).filename demo_names) = some file
        ∧ read_tuples (FixedKind.btriples.inst (demo_set true)).io.signature.length 1
            FixedKind.btriples.arity demo_decode file
          = some ((FixedKind.btriples.inst (demo_set true)).tuples 2 (0 : Nat))
        ∧ ((FixedKind.btriples.inst (demo_set true)).tuples 2 (0 : Nat)).length = 2 :=
  C8_round_trip (demo_system 0 true) (demo_set true) demo_names 2 64 (0 : Nat) empty_world
    FixedKind.btriples 1 demo_decode rfl (by decide) (fun _ => rfl) (fun _ => rfl)

/-- C9: for `btriples` every generation call of the run is a `get` of `DATA_TRIPLE` on the
binary preprocessing and the only MAC check of the run is on the binary checker; for each
of the other six supported tuple types the only MAC check of the run is on the main-field
checker. -/
theorem C9_checker_selection (sys : System) (ps : MixedProtocolSet) (N : Names)
    (tuple_count n_bits : Int) (tuple_type : String) (s : ps.S) (w : World)
    (h : tuple_type ∈ supported_tuple_types) :
    (tuple_type = "btriples" →
        (∀ e ∈ (generate_tuples sys ps N tuple_count tuple_type n_bits s w).2.2.events_since w,
            e.is_generation = true → e = Event.get PrepId.binary Dtype.DATA_TRIPLE)
          ∧ ∃ v, ((generate_tuples sys ps N tuple_count tuple_type n_bits s w).2.2.events_since
              w).filter Event.is_check = [Event.Check CheckerId.binary v])
      ∧ (tuple_type ≠ "btriples" →
          ∃ v, ((generate_tuples sys ps N tuple_count tuple_type n_bits s w).2.2.events_since
            w).filter Event.is_check = [Event.Check CheckerId.main v]) := by
  obtain ⟨f, m1, m2, g, c, v, htrace, _, hg, hc, hb, _, _⟩ :=
    generate_tuples_shape sys ps N tuple_count n_bits tuple_type s w h
  rw [events_since_append _ w _ htrace]
  have hfilter : List.filter Event.is_check
      ([Event.open_file f (sys.can_open f), Event.cout m1] ++ List.replicate tuple_count.toNat g
        ++ [Event.cout m2, Event.close_file f] ++ [Event.Check c v]) = [Event.Check c v] := by
    simp [List.filter_append, Event.is_check,
      filter_replicate_false _ _ _ (generation_not_check g hg)]
  rw [hfilter]
  refine ⟨?_, ?_⟩
  · intro hbt
    refine ⟨?_, v, by rw [hc.2 hbt]⟩
    intro e he hgen
    rcases mem_run_events _ _ _ _ _ _ _ _ _ he with h1 | h1 | h1 | h1 | h1 | h1
    · subst h1; cases hgen
    · subst h1; cases hgen
    · rw [h1]; exact hb hbt
    · subst h1; cases hgen
    · subst h1; cases hgen
    · subst h1; cases hgen
  · intro hbt
    refine ⟨v, ?_⟩
    cases c with
    | main => rfl
    | binary => exact absurd (hc.1 rfl) hbt

/-- Witness of C9: two `edabits` of the demo set are checked on the main-field checker. -/
theorem C9_checker_selection_witness :
    "edabits" ∈ supported_tuple_types
      ∧ ∃ v, ((generate_tuples (demo_system 0 true) (demo_set true) demo_names 2 "edabits" 64
          (0 : Nat) empty_world).2.2.events_since empty_world).filter Event.is_check
            = [Event.Check CheckerId.main v] :=
  ⟨by decide, (C9_checker_selection (demo_system 0 true) (demo_set true) demo_names 2 64
    "edabits" (0 : Nat) empty_world (by decide)).2 (by decide)⟩

/-- C10: for every supported tuple type and every tuple count `n <= 0`, the run makes no
generation call, opens one output file, which (when it could be opened) holds exactly the
signature header, and runs the MAC check exactly once; the outcome is that of the check
alone, so the run does not fail because of the count. -/
theorem C10_empty_batch (sys : System) (ps : MixedProtocolSet) (N : Names)
    (tuple_count n_bits : Int) (tuple_type : String) (s : ps.S) (w : World)
    (h : tuple_type ∈ supported_tuple_types) (hn : tuple_count ≤ 0) :
    ∃ (f : String) (c : CheckerId) (v : Bool),
      ((generate_tuples sys ps N tuple_count tuple_type n_bits s w).2.2.events_since w).filter
          Event.is_generation = []
        ∧ ((generate_tuples sys ps N tuple_count tuple_type n_bits s w).2.2.events_since w).filter
          Event.is_open_file = [Event.open_file f (sys.can_open f)]
        ∧ (sys.can_open f = true →
            (generate_tuples sys ps N tuple_count tuple_type n_bits s w).2.2.fs f
              = some (if tuple_type = "btriples" then ps.bit_share.signature
                else ps.share.signature))
        ∧ ((generate_tuples sys ps N tuple_count tuple_type n_bits s w).2.2.events_since w).filter
          Event.is_check = [Event.Check c v]
        ∧ (generate_tuples sys ps N tuple_count tuple_type n_bits s w).1
          = (if v then Outcome.returned else Outcome.uncaught Exception.mac_fail) := by
  obtain ⟨f, m1, m2, g, c, v, htrace, hout, hg, _, _, _, hfs⟩ :=
    generate_tuples_shape sys ps N tuple_count n_bits tuple_type s w h
  have h0 : tuple_count.toNat = 0 := Int.toNat_of_nonpos hn
  rw [events_since_append _ w _ htrace, h0]
  refine ⟨f, c, v, ?_, ?_, hfs h0, ?_, hout⟩
  · simp [Event.is_generation]
  · simp [Event.is_open_file]
  · simp [Event.is_check]

/-- Witness of C10: a request for minus three `inverses` of the demo set. -/
theorem C10_empty_batch_witness :
    "inverses" ∈ supported_tuple_types ∧ (-3 : Int) ≤ 0
      ∧ ∃ (f : String) (c : CheckerId) (v : Bool),
        ((generate_tuples (demo_system 0 true) (demo_set true) demo_names (-3) "inverses" 64
            (0 : Nat) empty_world).2.2.events_since empty_world).filter
          Event.is_generation = []
        ∧ ((generate_tuples (demo_system 0 true) (demo_set true) demo_names (-3) "inverses" 64
            (0 : Nat) empty_world).2.2.events_since empty_world).filter
          Event.is_open_file = [Event.open_file f ((demo_system 0 true).can_open f)]
        ∧ ((demo_system 0 true).can_open f = true →
            (generate_tuples (demo_system 0 true) (demo_set true) demo_names (-3) "inverses" 64
                (0 : Nat) empty_world).2.2.fs f
              = some (if "inverses" = "btriples" then (demo_set true).bit_share.signature
                else (demo_set true).share.signature))
        ∧ ((generate_tuples (demo_system 0 true) (demo_set true) demo_names (-3) "inverses" 64
            (0 : Nat) empty_world).2.2.events_since empty_world).filter
          Event.is_check = [Event.Check c v]
        ∧ (generate_tuples (demo_system 0 true) (demo_set true) demo_names (-3) "inverses" 64
            (0 : Nat) empty_world).1
          = (if v then Outcome.returned else Outcome.uncaught Exception.mac_fail) :=
  ⟨by decide, by decide, C10_empty_batch (demo_system 0 true) (demo_set true) demo_names (-3)
    64 "inverses" (0 : Nat) empty_world (by decide) (by decide)⟩

/-! ## The shape of a run of `main` -/

/-- The working directory step either throws, or hands over to the network setup after
local events only. -/
theorem field_branch_shape (sys : System) (ps : MixedProtocolSet)
    (player_id number_of_players port tuple_count n_bits : Int)
    (tuple_type playerfile : String) (w : World) :
    ∃ pre : List Event, (∀ e ∈ pre, e.is_local = true) ∧
      ((field_branch sys ps player_id number_of_players port tuple_count n_bits tuple_type
            playerfile w
          = (Outcome.uncaught Exception.filesystem_error, ⟨w.fs, w.trace ++ pre⟩)
        ∧ sys.fs_exists (working_directory sys ps tuple_type number_of_players) = false
        ∧ sys.create_directory (working_directory sys ps tuple_type number_of_players)
          = CreateResult.threw)
      ∨ (field_branch sys ps player_id number_of_players port tuple_count n_bits tuple_type
            playerfile w
          = network_and_generate sys ps player_id number_of_players port tuple_count n_bits
              tuple_type playerfile ⟨w.fs, w.trace ++ pre⟩
        ∧ (sys.fs_exists (working_directory sys ps tuple_type number_of_players) = true
          ∨ sys.create_directory (working_directory sys ps tuple_type number_of_players)
            ≠ CreateResult.threw))) := by
  by_cases hex : sys.fs_exists (working_directory sys ps tuple_type number_of_players) = true
  · refine ⟨[Event.fs_exists (working_directory sys ps tuple_type number_of_players) true],
      by simp [Event.is_local], Or.inr ⟨?_, Or.inl hex⟩⟩
    simp [field_branch, hex, World.emit]
  · have hex2 : sys.fs_exists (working_directory sys ps tuple_type number_of_players) = false := by
      simpa using hex
    cases hcr : sys.create_directory (working_directory sys ps tuple_type number_of_players) with
    | created =>
      refine ⟨[Event.fs_exists (working_directory sys ps tuple_type number_of_players) false,
          Event.create_directory (working_directory sys ps tuple_type number_of_players),
          Event.cout (Msg.directory_created
            (working_directory sys ps tuple_type number_of_players))],
        by simp [Event.is_local], Or.inr ⟨?_, Or.inr (by simp)⟩⟩
      simp [field_branch, hex2, hcr, World.emit]
    | not_created =>
      refine ⟨[Event.fs_exists (working_directory sys ps tuple_type number_of_players) false,
          Event.create_directory (working_directory sys ps tuple_type number_of_players)],
        by simp [Event.is_local], Or.inr ⟨?_, Or.inr (by simp)⟩⟩
      simp [field_branch, hex2, hcr, World.emit]
    | threw =>
      refine ⟨[Event.fs_exists (working_directory sys ps tuple_type number_of_players) false,
          Event.create_directory (working_directory sys ps tuple_type number_of_players)],
        by simp [Event.is_local], Or.inl ⟨?_, hex2, rfl⟩⟩
      simp [field_branch, hex2, hcr, World.emit]

/-- Extending the local events in front of a `field_branch`. -/
theorem field_branch_after (sys : System) (ps : MixedProtocolSet)
    (player_id number_of_players port tuple_count n_bits : Int)
    (tuple_type playerfile : String) (w : World) (pre0 : List Event)
    (h0 : ∀ e ∈ pre0, e.is_local = true) :
    ∃ pre : List Event, (∀ e ∈ pre, e.is_local = true) ∧
      ((field_branch sys ps player_id number_of_players port tuple_count n_bits tuple_type
            playerfile ⟨w.fs, w.trace ++ pre0⟩
          = (Outcome.uncaught Exception.filesystem_error, ⟨w.fs, w.trace ++ pre⟩)
        ∧ sys.fs_exists (working_directory sys ps tuple_type number_of_players) = false
        ∧ sys.create_directory (working_directory sys ps tuple_type number_of_players)
          = CreateResult.threw)
      ∨ (field_branch sys ps player_id number_of_players port tuple_count n_bits tuple_type
            playerfile ⟨w.fs, w.trace ++ pre0⟩
          = network_and_generate sys ps player_id number_of_players port tuple_count n_bits
              tuple_type playerfile ⟨w.fs, w.trace ++ pre⟩
        ∧ (sys.fs_exists (working_directory sys ps tuple_type number_of_players) = true
          ∨ sys.create_directory (working_directory sys ps tuple_type number_of_players)
            ≠ CreateResult.threw))) := by
  obtain ⟨pre, hpre, h⟩ := field_branch_shape sys ps player_id number_of_players port
    tuple_count n_bits tuple_type playerfile ⟨w.fs, w.trace ++ pre0⟩
  refine ⟨pre0 ++ pre, ?_, ?_⟩
  · intro e he
    rcases List.mem_append.1 he with he | he
    · exact h0 e he
    · exact hpre e he
  · simpa only [List.append_assoc] using h

/-- Every run of `main`, classified.  It starts with local steps `pre` only, and then:
a required option is missing and it exits with status zero after the usage message; or
`mkdir_p` fails and a `runtime_error` escapes; or the field is not supported (or the prime is
missing) and it exits with `EXIT_FAILURE`; or creating the working directory throws; or the
network setup and the generation follow. -/
theorem main_shape (sys : System) (gfp_set gf2n_set : MixedProtocolSet) (opt : Options)
    (w : World) :
    ∃ pre : List Event, (∀ e ∈ pre, e.is_local = true) ∧
      ((opt.required_set = false
          ∧ main sys gfp_set gf2n_set opt w = (Outcome.exited 0, ⟨w.fs, w.trace ++ pre⟩)
          ∧ pre = [Event.CowGearOptions, Event.parse, Event.cout Msg.usage])
      ∨ (opt.required_set = true ∧ sys.mkdir_p sys.PREP_DIR = -1
          ∧ ∃ what, main sys gfp_set gf2n_set opt w
            = (Outcome.uncaught (Exception.runtime_error what), ⟨w.fs, w.trace ++ pre⟩))
      ∨ (opt.required_set = true ∧ sys.mkdir_p sys.PREP_DIR ≠ -1
          ∧ ¬ (opt.field_type = some "gfp" ∧ opt.prime.isSome = true
            ∨ opt.field_type = some "gf2n")
          ∧ main sys gfp_set gf2n_set opt w
            = (Outcome.exited EXIT_FAILURE, ⟨w.fs, w.trace ++ pre⟩))
      ∨ (opt.required_set = true ∧ sys.mkdir_p sys.PREP_DIR ≠ -1
          ∧ ∃ (ps : MixedProtocolSet) (player_id number_of_players : Int) (tuple_type : String),
            (opt.field_type = some "gfp" ∧ opt.prime.isSome = true ∧ ps = gfp_set
              ∨ opt.field_type = some "gf2n" ∧ ps = gf2n_set)
            ∧ opt.player = some player_id ∧ opt.number_of_parties = some number_of_players
            ∧ opt.tuple_type = some tuple_type
            ∧ ((sys.fs_exists (working_directory sys ps tuple_type number_of_players) = false
                ∧ sys.create_directory (working_directory sys ps tuple_type number_of_players)
                  = CreateResult.threw
                ∧ main sys gfp_set gf2n_set opt w
                  = (Outcome.uncaught Exception.filesystem_error, ⟨w.fs, w.trace ++ pre⟩))
              ∨ ((sys.fs_exists (working_directory sys ps tuple_type number_of_players) = true
                  ∨ sys.create_directory (working_directory sys ps tuple_type number_of_players)
                    ≠ CreateResult.threw)
                ∧ main sys gfp_set gf2n_set opt w
                  = network_and_generate sys ps player_id number_of_players
                      (opt.port.getD 5000) (opt.tuple_count.getD 100000)
                      (opt.edabit_width.getD 64) tuple_type (opt.playerfile.getD "players")
                      ⟨w.fs, w.trace ++ pre⟩)))) := by
  by_cases hreq : opt.required_set = true
  · obtain ⟨N, p, pf, ft, prime, tt, P, tc, ew⟩ := opt
    have hreq0 := hreq
    simp only [Options.required_set, Bool.and_eq_true, Option.isSome_iff_exists] at hreq
    obtain ⟨⟨⟨⟨n, hn⟩, ⟨pid, hp⟩⟩, ⟨field_type, hft⟩⟩, ⟨tuple_type, htt⟩⟩ := hreq
    subst hn hp hft htt
    by_cases hmk : sys.mkdir_p sys.PREP_DIR = -1
    · refine ⟨[Event.CowGearOptions, Event.parse, Event.mkdir_p sys.PREP_DIR (-1)],
        by simp [Event.is_local],
        Or.inr (Or.inl ⟨hreq0, hmk, "cannot use " ++ sys.PREP_DIR
          ++ " (set another PREP_DIR in CONFIG when building if needed)", ?_⟩)⟩
      simp [main, hmk, World.emit]
    · by_cases hgfp : field_type = "gfp"
      · subst hgfp
        cases prime with
        | none =>
          refine ⟨[Event.CowGearOptions, Event.parse,
              Event.mkdir_p sys.PREP_DIR (sys.mkdir_p sys.PREP_DIR), Event.cerr Msg.no_prime_given],
            by simp [Event.is_local],
            Or.inr (Or.inr (Or.inl ⟨hreq0, hmk, by simp, ?_⟩))⟩
          simp [main, hmk, World.emit]
        | some prime =>
          obtain ⟨pre, hpre, h⟩ := field_branch_after sys gfp_set pid n (P.getD 5000)
            (tc.getD 100000) (ew.getD 64) tuple_type (pf.getD "players") w
            [Event.CowGearOptions, Event.parse,
              Event.mkdir_p sys.PREP_DIR (sys.mkdir_p sys.PREP_DIR),
              Event.cout (Msg.using_prime prime), Event.init_field FieldId.gfp]
            (by simp [Event.is_local])
          have hmain : main sys gfp_set gf2n_set ⟨some n, some pid, pf, some "gfp", some prime,
              some tuple_type, P, tc, ew⟩ w
              = field_branch sys gfp_set pid n (P.getD 5000) (tc.getD 100000) (ew.getD 64)
                  tuple_type (pf.getD "players")
                  ⟨w.fs, w.trace ++ [Event.CowGearOptions, Event.parse,
                    Event.mkdir_p sys.PREP_DIR (sys.mkdir_p sys.PREP_DIR),
                    Event.cout (Msg.using_prime prime), Event.init_field FieldId.gfp]⟩ := by
            simp [main, hmk, World.emit]
          refine ⟨pre, hpre, Or.inr (Or.inr (Or.inr ⟨hreq0, hmk, gfp_set, pid, n, tuple_type,
            Or.inl ⟨rfl, rfl, rfl⟩, rfl, rfl, rfl, ?_⟩))⟩
          rcases h with h | h
          · exact Or.inl ⟨h.2.1, h.2.2, hmain.trans h.1⟩
          · exact Or.inr ⟨h.2, hmain.trans h.1⟩
      · by_cases hgf2n : field_type = "gf2n"
        · subst hgf2n
          obtain ⟨pre, hpre, h⟩ := field_branch_after sys gf2n_set pid n (P.getD 5000)
            (tc.getD 100000) (ew.getD 64) tuple_type (pf.getD "players") w
            [Event.CowGearOptions, Event.parse,
              Event.mkdir_p sys.PREP_DIR (sys.mkdir_p sys.PREP_DIR),
              Event.init_field FieldId.gf2n]
            (by simp [Event.is_local])
          have hmain : main sys gfp_set gf2n_set ⟨some n, some pid, pf, some "gf2n", prime,
              some tuple_type, P, tc, ew⟩ w
              = field_branch sys gf2n_set pid n (P.getD 5000) (tc.getD 100000) (ew.getD 64)
                  tuple_type (pf.getD "players")
                  ⟨w.fs, w.trace ++ [Event.CowGearOptions, Event.parse,
                    Event.mkdir_p sys.PREP_DIR (sys.mkdir_p sys.PREP_DIR),
                    Event.init_field FieldId.gf2n]⟩ := by
            simp [main, hmk, World.emit]
          refine ⟨pre, hpre, Or.inr (Or.inr (Or.inr ⟨hreq0, hmk, gf2n_set, pid, n, tuple_type,
            Or.inr ⟨rfl, rfl⟩, rfl, rfl, rfl, ?_⟩))⟩
          rcases h with h | h
          · exact Or.inl ⟨h.2.1, h.2.2, hmain.trans h.1⟩
          · exact Or.inr ⟨h.2, hmain.trans h.1⟩
        · refine ⟨[Event.CowGearOptions, Event.parse,
              Event.mkdir_p sys.PREP_DIR (sys.mkdir_p sys.PREP_DIR),
              Event.cerr (Msg.field_type_not_supported field_type)],
            by simp [Event.is_local],
            Or.inr (Or.inr (Or.inl ⟨hreq0, hmk, by simp [hgfp, hgf2n], ?_⟩))⟩
          simp [main, hmk, hgfp, hgf2n, World.emit]
  · have hreq2 : opt.required_set = false := by simpa using hreq
    refine ⟨[Event.CowGearOptions, Event.parse, Event.cout Msg.usage],
      by simp [Event.is_local], Or.inl ⟨hreq2, ?_, rfl⟩⟩
    have hnot : (opt.number_of_parties.isNone || opt.player.isNone || opt.field_type.isNone
        || opt.tuple_type.isNone) = true := by
      obtain ⟨N, p, pf, ft, prime, tt, P, tc, ew⟩ := opt
      cases N <;> cases p <;> cases ft <;> cases tt <;> simp_all [Options.required_set]
    simp [main, hnot, World.emit]

/-! ## The network setup and what follows -/

theorem generate_requested_unsupported (sys : System) (ps : MixedProtocolSet) (N : Names)
    (tuple_count n_bits : Int) (tuple_type : String) (s : ps.S) (w : World)
    (h : tuple_type ∉ supported_tuple_types) :
    generate_requested sys ps N tuple_count tuple_type n_bits s w = none := by
  simp only [supported_tuple_types, List.mem_cons, List.mem_singleton, List.not_mem_nil,
    or_false, not_or] at h
  obtain ⟨h1, h2, h3, h4, h5, h6, h7⟩ := h
  simp [generate_requested, h1, h2, h3, h4, h5, h6, h7]

/-- Whatever the tuple type, `generate_tuples<T>` only adds events, none of them local or
part of the network setup, and never ends with a directory error. -/
theorem generate_tuples_extends (sys : System) (ps : MixedProtocolSet) (N : Names)
    (tuple_count n_bits : Int) (tuple_type : String) (s : ps.S) (w : World) :
    ∃ added : List Event,
      (generate_tuples sys ps N tuple_count tuple_type n_bits s w).2.2.trace = w.trace ++ added
      ∧ ((generate_tuples sys ps N tuple_count tuple_type n_bits s w).1 = Outcome.returned
        ∨ (generate_tuples sys ps N tuple_count tuple_type n_bits s w).1
          = Outcome.uncaught Exception.mac_fail
        ∨ (generate_tuples sys ps N tuple_count tuple_type n_bits s w).1
          = Outcome.exited EXIT_FAILURE) := by
  by_cases h : tuple_type ∈ supported_tuple_types
  · obtain ⟨f, m1, m2, g, c, v, htrace, hout, _⟩ :=
      generate_tuples_shape sys ps N tuple_count n_bits tuple_type s w h
    refine ⟨_, htrace, ?_⟩
    rw [hout]
    cases v
    · exact Or.inr (Or.inl rfl)
    · exact Or.inl rfl
  · rw [generate_tuples_of_none _ _ _ _ _ _ _ _
      (generate_requested_unsupported sys ps N tuple_count n_bits tuple_type s w h)]
    exact ⟨[Event.cerr (Msg.tuple_type_not_supported tuple_type)], rfl, Or.inr (Or.inr rfl)⟩

theorem network_and_generate_eq (sys : System) (ps : MixedProtocolSet)
    (player_id number_of_players port tuple_count n_bits : Int)
    (tuple_type playerfile : String) (w : World) (pre : List Event) :
    network_and_generate sys ps player_id number_of_players port tuple_count n_bits tuple_type
        playerfile ⟨w.fs, w.trace ++ pre⟩
      = ((generate_tuples sys ps ⟨player_id, port, playerfile, number_of_players⟩ tuple_count
            tuple_type n_bits (ps.construct ⟨player_id, port, playerfile, number_of_players⟩)
            ⟨w.fs, w.trace ++ (pre ++ [Event.names_init player_id port playerfile
              number_of_players, Event.plain_player, Event.write_setup number_of_players,
              Event.protocol_setup])⟩).1,
        (generate_tuples sys ps ⟨player_id, port, playerfile, number_of_players⟩ tuple_count
            tuple_type n_bits (ps.construct ⟨player_id, port, playerfile, number_of_players⟩)
            ⟨w.fs, w.trace ++ (pre ++ [Event.names_init player_id port playerfile
              number_of_players, Event.plain_player, Event.write_setup number_of_players,
              Event.protocol_setup])⟩).2.2) := by
  simp [network_and_generate, World.emit]

theorem local_not_generation (e : Event) (h : e.is_local = true) : e.is_generation = false := by
  cases e <;> simp_all [Event.is_local, Event.is_generation]

theorem local_not_check (e : Event) (h : e.is_local = true) : e.is_check = false := by
  cases e <;> simp_all [Event.is_local, Event.is_check]

theorem split_after {α : Type} (l1 l2 p q : List α) (x : α) (h : l1 ++ l2 = p ++ x :: q)
    (hx : x ∉ l1) : ∃ c, p = l1 ++ c := by
  rcases List.append_eq_append_iff.1 h with ⟨a, ha, _⟩ | ⟨c, hc, hq⟩
  · exact ⟨a, ha⟩
  · cases c with
    | nil => exact ⟨[], by simpa using hc.symm⟩
    | cons y c =>
      simp only [List.cons_append, List.cons.injEq] at hq
      exact absurd (by rw [hc, hq.1]; simp) hx

theorem required_set_of_some (opt : Options) (n pid : Int) (ft tt : String)
    (hN : opt.number_of_parties = some n) (hp : opt.player = some pid)
    (hft : opt.field_type = some ft) (htt : opt.tuple_type = some tt) :
    opt.required_set = true := by
  simp [Options.required_set, hN, hp, hft, htt]

/-! ## Claims about `main` -/

/-- C7: in every invocation where one of the required options `-N`, `-p`, `-ft`, `-tt` is
not set, whatever the other options are, the program prints the usage message and exits with
status zero; apart from building and parsing the options nothing else happens: no directory
is created, no field initialised, no network set up, no tuple generated, no file touched. -/
theorem C7_missing_required_option (sys : System) (gfp_set gf2n_set : MixedProtocolSet)
    (opt : Options) (w : World)
    (h : opt.number_of_parties = none ∨ opt.player = none ∨ opt.field_type = none
      ∨ opt.tuple_type = none) :
    (main sys gfp_set gf2n_set opt w).1 = Outcome.exited 0
      ∧ (main sys gfp_set gf2n_set opt w).2.events_since w
        = [Event.CowGearOptions, Event.parse, Event.cout Msg.usage]
      ∧ (∀ e ∈ (main sys gfp_set gf2n_set opt w).2.events_since w, e.is_work = false)
      ∧ (main sys gfp_set gf2n_set opt w).2.fs = w.fs := by
  have hnot : (opt.number_of_parties.isNone || opt.player.isNone || opt.field_type.isNone
      || opt.tuple_type.isNone) = true := by
    rcases h with h | h | h | h <;> simp [h]
  have hmain : main sys gfp_set gf2n_set opt w
      = (Outcome.exited 0,
          ⟨w.fs, w.trace ++ [Event.CowGearOptions, Event.parse, Event.cout Msg.usage]⟩) := by
    simp [main, hnot, World.emit]
  rw [hmain]
  refine ⟨rfl, events_since_append _ w _ rfl, ?_, rfl⟩
  rw [events_since_append _ w _ rfl]
  intro e he
  simp only [List.mem_cons, List.mem_singleton, List.not_mem_nil, or_false] at he
  rcases he with he | he | he <;> subst he <;> rfl

/-- Witness of C7: the player index is missing, the rest of the command line is valid. -/
theorem C7_missing_required_option_witness :
    (main (demo_system 0 true) (demo_set true) (demo_set true) no_player_options
        empty_world).1 = Outcome.exited 0
      ∧ (main (demo_system 0 true) (demo_set true) (demo_set true) no_player_options
          empty_world).2.events_since empty_world
        = [Event.CowGearOptions, Event.parse, Event.cout Msg.usage]
      ∧ (∀ e ∈ (main (demo_system 0 true) (demo_set true) (demo_set true) no_player_options
          empty_world).2.events_since empty_world, e.is_work = false)
      ∧ (main (demo_system 0 true) (demo_set true) (demo_set true) no_player_options
          empty_world).2.fs = empty_world.fs :=
  C7_missing_required_option (demo_system 0 true) (demo_set true) (demo_set true)
    no_player_options empty_world (Or.inr (Or.inl rfl))

/-- C6: with the four required options set, for every field type other than `gfp` and
`gf2n`, for `gfp` without a prime, and for every tuple type outside the seven supported
ones, the run ends in failure: with `exit(EXIT_FAILURE)` when the directory steps succeed,
with an uncaught exception when one of them fails first.  No tuple-generation call and no
MAC check is made. -/
theorem C6_unsupported_configuration (sys : System) (gfp_set gf2n_set : MixedProtocolSet)
    (opt : Options) (w : World) (hreq : opt.required_set = true)
    (hbad : (opt.field_type ≠ some "gfp" ∧ opt.field_type ≠ some "gf2n")
      ∨ (opt.field_type = some "gfp" ∧ opt.prime = none)
      ∨ (∀ tt ∈ supported_tuple_types, opt.tuple_type ≠ some tt)) :
    (main sys gfp_set gf2n_set opt w).1.failed = true
      ∧ (sys.mkdir_p sys.PREP_DIR ≠ -1 → (∀ p, sys.create_directory p ≠ CreateResult.threw) →
          (main sys gfp_set gf2n_set opt w).1 = Outcome.exited EXIT_FAILURE)
      ∧ (∀ e ∈ (main sys gfp_set gf2n_set opt w).2.events_since w,
          e.is_generation = false ∧ e.is_check = false) := by
  obtain ⟨pre, hpre, hcase⟩ := main_shape sys gfp_set gf2n_set opt w
  have hlocal : ∀ e ∈ pre, e.is_generation = false ∧ e.is_check = false :=
    fun e he => ⟨local_not_generation e (hpre e he), local_not_check e (hpre e he)⟩
  rcases hcase with ⟨hno, _, _⟩ | ⟨_, hmk, what, hmain⟩ | ⟨_, _, _, hmain⟩
    | ⟨_, _, ps, pid, n, tt, hfield, _, _, htt, hdir⟩
  · rw [hreq] at hno; cases hno
  · rw [hmain]
    exact ⟨rfl, fun h _ => absurd hmk h, by rw [events_since_append _ w _ rfl]; exact hlocal⟩
  · rw [hmain]
    exact ⟨rfl, fun _ _ => rfl, by rw [events_since_append _ w _ rfl]; exact hlocal⟩
  · rcases hdir with ⟨_, hthrew, hmain⟩ | ⟨_, hmain⟩
    · rw [hmain]
      exact ⟨rfl, fun _ h => absurd hthrew (h _),
        by rw [events_since_append _ w _ rfl]; exact hlocal⟩
    · have hunsupported : tt ∉ supported_tuple_types := by
        rcases hbad with ⟨h1, h2⟩ | ⟨h1, h2⟩ | h3
        · rcases hfield with ⟨hf, _, _⟩ | ⟨hf, _⟩
          · exact absurd hf h1
          · exact absurd hf h2
        · rcases hfield with ⟨_, hprime, _⟩ | ⟨hf, _⟩
          · rw [h2] at hprime; cases hprime
          · exact absurd (h1.symm.trans hf) (by decide)
        · exact fun hmem => h3 tt hmem htt
      rw [hmain, network_and_generate_eq,
        generate_tuples_of_none _ _ _ _ _ _ _ _ (generate_requested_unsupported _ _ _ _ _ _ _ _
          hunsupported)]
      refine ⟨rfl, fun _ _ => rfl, ?_⟩
      simp only [World.emit, List.append_assoc]
      rw [events_since_append _ w _ rfl]
      intro e he
      simp only [List.mem_append, List.mem_cons, List.mem_singleton, List.not_mem_nil,
        or_false] at he
      rcases he with he | he | he
      · exact hlocal e he
      · rcases he with he | he | he | he <;> subst he <;> exact ⟨rfl, rfl⟩
      · subst he; exact ⟨rfl, rfl⟩

/-- Witness of C6: the tuple type `quadruples` over gf2n. -/
theorem C6_unsupported_configuration_witness :
    (demo_options "gf2n" "quadruples" 5).required_set = true
      ∧ (∀ tt ∈ supported_tuple_types,
          (demo_options "gf2n" "quadruples" 5).tuple_type ≠ some tt)
      ∧ (main (demo_system 0 true) (demo_set true) (demo_set true)
          (demo_options "gf2n" "quadruples" 5) empty_world).1.failed = true :=
  ⟨rfl, by decide, (C6_unsupported_configuration (demo_system 0 true) (demo_set true)
    (demo_set true) (demo_options "gf2n" "quadruples" 5) empty_world rfl
    (Or.inr (Or.inr (by decide)))).1⟩

/-- C5, counterexample: the output file cannot be opened.  The network has been set up
before the attempt to open it, and the run goes on to generate and check the batch and
returns normally. -/
theorem C5_counterexample_unopened_file_not_fatal :
    (demo_system 0 false).can_open "main" = false
      ∧ (main (demo_system 0 false) (demo_set true) (demo_set true)
          (demo_options "gfp" "triples" 1) empty_world).1 = Outcome.returned
      ∧ (main (demo_system 0 false) (demo_set true) (demo_set true)
          (demo_options "gfp" "triples" 1) empty_world).2.trace
        = [Event.CowGearOptions, Event.parse, Event.mkdir_p "Player-Data/" 0,
            Event.cout (Msg.using_prime "170141183460469231731687303715885907969"),
            Event.init_field FieldId.gfp, Event.fs_exists "Player-Data/" true,
            Event.names_init 0 5000 "players" 2, Event.plain_player, Event.write_setup 2,
            Event.protocol_setup, Event.open_file "main" false,
            Event.cout (Msg.generating 1 ""),
            Event.get PrepId.main Dtype.DATA_TRIPLE,
            Event.cout (Msg.wrote 1 "" "main"), Event.close_file "main",
            Event.Check CheckerId.main true] := by
  decide

/-- C5, amended: when the output directory cannot be created, the run fails fatally before
any network setup: if `mkdir_p(PREP_DIR)` returns -1 a `runtime_error` escapes, and if the
working directory is missing and creating it throws, that error escapes; in both runs every
step made is local (options, printing, directories, field initialisation).  The output file
is opened only after the network setup: every attempt to open a file comes after
`Names::init`, the `PlainPlayer` constructor and the protocol setup. -/
theorem C5_directory_failure_before_network (sys : System)
    (gfp_set gf2n_set : MixedProtocolSet) (opt : Options) (w : World) (n pid : Int)
    (ft tt : String)
    (hN : opt.number_of_parties = some n) (hp : opt.player = some pid)
    (hft : opt.field_type = some ft) (htt : opt.tuple_type = some tt) :
    (sys.mkdir_p sys.PREP_DIR = -1 →
        (∃ what, (main sys gfp_set gf2n_set opt w).1
          = Outcome.uncaught (Exception.runtime_error what))
        ∧ ∀ e ∈ (main sys gfp_set gf2n_set opt w).2.events_since w, e.is_local = true)
      ∧ (sys.mkdir_p sys.PREP_DIR ≠ -1 →
          (ft = "gfp" ∧ opt.prime.isSome = true ∨ ft = "gf2n") →
          sys.fs_exists (working_directory sys (if ft = "gfp" then gfp_set else gf2n_set) tt n)
            = false →
          sys.create_directory
              (working_directory sys (if ft = "gfp" then gfp_set else gf2n_set) tt n)
            = CreateResult.threw →
          (main sys gfp_set gf2n_set opt w).1 = Outcome.uncaught Exception.filesystem_error
          ∧ ∀ e ∈ (main sys gfp_set gf2n_set opt w).2.events_since w, e.is_local = true)
      ∧ (∀ (p q : List Event) (f : String) (ok : Bool),
          (main sys gfp_set gf2n_set opt w).2.events_since w = p ++ Event.open_file f ok :: q →
          Event.names_init pid (opt.port.getD 5000) (opt.playerfile.getD "players") n ∈ p
            ∧ Event.plain_player ∈ p ∧ Event.protocol_setup ∈ p) := by
  have hreq : opt.required_set = true := required_set_of_some opt n pid ft tt hN hp hft htt
  obtain ⟨pre, hpre, hcase⟩ := main_shape sys gfp_set gf2n_set opt w
  have hno_open : ∀ (p q : List Event) (f : String) (ok : Bool),
      pre = p ++ Event.open_file f ok :: q →
      Event.names_init pid (opt.port.getD 5000) (opt.playerfile.getD "players") n ∈ p
        ∧ Event.plain_player ∈ p ∧ Event.protocol_setup ∈ p := by
    intro p q f ok hsplit
    have hmem : Event.open_file f ok ∈ pre := by rw [hsplit]; simp
    exact absurd (hpre _ hmem) (by simp [Event.is_local])
  rcases hcase with ⟨hno, _, _⟩ | ⟨_, hmk, what, hmain⟩ | ⟨_, hmk, hfield, hmain⟩
    | ⟨_, hmk, ps, pid2, n2, tt2, hfield, hp2, hN2, htt2, hdir⟩
  · rw [hreq] at hno; cases hno
  · rw [hmain, events_since_append _ w _ rfl]
    exact ⟨fun _ => ⟨⟨what, rfl⟩, hpre⟩, fun h => absurd hmk h, hno_open⟩
  · rw [hmain, events_since_append _ w _ rfl]
    refine ⟨fun h => absurd h hmk, fun _ hf => ?_, hno_open⟩
    rw [hft] at hfield
    exact absurd (by simpa using hf) hfield
  · have hpid : pid2 = pid := by rw [hp] at hp2; exact (Option.some.inj hp2).symm
    have hn : n2 = n := by rw [hN] at hN2; exact (Option.some.inj hN2).symm
    have htt3 : tt2 = tt := by rw [htt] at htt2; exact (Option.some.inj htt2).symm
    subst hpid hn htt3
    have hps : ps = (if ft = "gfp" then gfp_set else gf2n_set) := by
      rw [hft] at hfield
      rcases hfield with ⟨hf, _, hps⟩ | ⟨hf, hps⟩
      · rw [hps, if_pos (Option.some.inj hf)]
      · have hf2 : ft = "gf2n" := Option.some.inj hf
        rw [hps, hf2, if_neg (by decide)]
    rcases hdir with ⟨_, _, hmain⟩ | ⟨hok, hmain⟩
    · rw [hmain, events_since_append _ w _ rfl]
      exact ⟨fun h => absurd h hmk, fun _ _ _ _ => ⟨rfl, hpre⟩, hno_open⟩
    · refine ⟨fun h => absurd h hmk, fun _ _ hex hthrew => ?_, ?_⟩
      · rw [← hps] at hex hthrew
        rcases hok with hok | hok
        · rw [hex] at hok; cases hok
        · exact absurd hthrew hok
      · intro p q f ok hsplit
        obtain ⟨added, htrace, _⟩ := generate_tuples_extends sys ps
          ⟨pid2, opt.port.getD 5000, opt.playerfile.getD "players", n2⟩
          (opt.tuple_count.getD 100000) (opt.edabit_width.getD 64) tt2
          (ps.construct ⟨pid2, opt.port.getD 5000, opt.playerfile.getD "players", n2⟩)
          ⟨w.fs, w.trace ++ (pre ++ [Event.names_init pid2 (opt.port.getD 5000)
            (opt.playerfile.getD "players") n2, Event.plain_player, Event.write_setup n2,
            Event.protocol_setup])⟩
        rw [hmain, network_and_generate_eq] at hsplit
        rw [events_since_append _ w ((pre ++ [Event.names_init pid2 (opt.port.getD 5000)
            (opt.playerfile.getD "players") n2, Event.plain_player, Event.write_setup n2,
            Event.protocol_setup]) ++ added) (by rw [htrace]; simp only [List.append_assoc])]
          at hsplit
        obtain ⟨c, hc⟩ := split_after _ _ _ _ _ hsplit (by
          intro hmem
          rcases List.mem_append.1 hmem with hmem | hmem
          · exact absurd (hpre _ hmem) (by simp [Event.is_local])
          · simp at hmem)
        rw [hc]
        simp

/-- Witness of C5 as amended: `mkdir_p` returns -1 in one run; in another the working
directory is missing and creating it throws. -/
theorem C5_directory_failure_before_network_witness :
    ((∃ what, (main (demo_system (-1) true) (demo_set true) (demo_set true)
            (demo_options "gfp" "triples" 1) empty_world).1
          = Outcome.uncaught (Exception.runtime_error what))
        ∧ ∀ e ∈ (main (demo_system (-1) true) (demo_set true) (demo_set true)
            (demo_options "gfp" "triples" 1) empty_world).2.events_since empty_world,
          e.is_local = true)
      ∧ ((main no_directory_system (demo_set true) (demo_set true)
            (demo_options "gfp" "triples" 1) empty_world).1
          = Outcome.uncaught Exception.filesystem_error
        ∧ ∀ e ∈ (main no_directory_system (demo_set true) (demo_set true)
            (demo_options "gfp" "triples" 1) empty_world).2.events_since empty_world,
          e.is_local = true) :=
  ⟨(C5_directory_failure_before_network (demo_system (-1) true) (demo_set true) (demo_set true)
      (demo_options "gfp" "triples" 1) empty_world 2 0 "gfp" "triples" rfl rfl rfl rfl).1 rfl,
    (C5_directory_failure_before_network no_directory_system (demo_set true) (demo_set true)
      (demo_options "gfp" "triples" 1) empty_world 2 0 "gfp" "triples" rfl rfl rfl rfl).2.1
      (by decide) (Or.inl ⟨rfl, rfl⟩) rfl rfl⟩

/-- C4, counterexample: one edabit of width 200 over the 128-bit prime field.  The network
is set up, `get_edabitvec(true, 200)` is called, and the run returns normally: no width error
is raised, before or after the network setup. -/
theorem C4_counterexample_wide_edabit_not_rejected :
    wide_edabit_options.edabit_width = some 200
      ∧ (main (demo_system 0 true) (demo_set true) (demo_set true) wide_edabit_options
          empty_world).1 = Outcome.returned
      ∧ (main (demo_system 0 true) (demo_set true) (demo_set true) wide_edabit_options
          empty_world).2.trace
        = [Event.CowGearOptions, Event.parse, Event.mkdir_p "Player-Data/" 0,
            Event.cout (Msg.using_prime "170141183460469231731687303715885907969"),
            Event.init_field FieldId.gfp, Event.fs_exists "Player-Data/" true,
            Event.names_init 0 5000 "players" 2, Event.plain_player, Event.write_setup 2,
            Event.protocol_setup, Event.open_file "main" true,
            Event.cout (Msg.generating 1 "eDabit"),
            Event.get_edabitvec true 200,
            Event.cout (Msg.wrote_edabit 1), Event.close_file "main",
            Event.Check CheckerId.main true] := by
  decide

/-- C4, amended: for every edabits request, whatever its bit width (also above the bit
capacity of the field), the driver makes no width check.  When the required options,
`PREP_DIR`, the field and the working directory are in order, the run consists of local
steps, the network setup, then `tuple_count` calls `get_edabitvec(true, n_bits)` with the
width as given, and the MAC check on the main-field checker, whose verdict alone decides the
outcome. -/
theorem C4_edabit_width_not_checked (sys : System) (gfp_set gf2n_set : MixedProtocolSet)
    (opt : Options) (w : World) (n pid : Int)
    (hN : opt.number_of_parties = some n) (hp : opt.player = some pid)
    (htt : opt.tuple_type = some "edabits")
    (hfield : opt.field_type = some "gfp" ∧ opt.prime.isSome = true
      ∨ opt.field_type = some "gf2n")
    (hmk : sys.mkdir_p sys.PREP_DIR ≠ -1)
    (hdir : ∀ p, sys.create_directory p ≠ CreateResult.threw) :
    ∃ (pre : List Event) (f : String) (m1 m2 : Msg) (v : Bool),
      (∀ e ∈ pre, e.is_local = true)
        ∧ (main sys gfp_set gf2n_set opt w).2.events_since w
          = pre ++ [Event.names_init pid (opt.port.getD 5000) (opt.playerfile.getD "players") n,
              Event.plain_player, Event.write_setup n, Event.protocol_setup]
            ++ [Event.open_file f (sys.can_open f), Event.cout m1]
            ++ List.replicate (opt.tuple_count.getD 100000).toNat
                (Event.get_edabitvec true (opt.edabit_width.getD 64))
            ++ [Event.cout m2, Event.close_file f, Event.Check CheckerId.main v]
        ∧ (main sys gfp_set gf2n_set opt w).1
          = (if v then Outcome.returned else Outcome.uncaught Exception.mac_fail) := by
  have hreq : opt.required_set = true := by
    rcases hfield with ⟨hf, _⟩ | hf
    · exact required_set_of_some opt n pid _ _ hN hp hf htt
    · exact required_set_of_some opt n pid _ _ hN hp hf htt
  obtain ⟨pre, hpre, hcase⟩ := main_shape sys gfp_set gf2n_set opt w
  rcases hcase with ⟨hno, _, _⟩ | ⟨_, hmk2, _, _⟩ | ⟨_, _, hbad, _⟩
    | ⟨_, _, ps, pid2, n2, tt2, _, hp2, hN2, htt2, hcreate⟩
  · rw [hreq] at hno; cases hno
  · exact absurd hmk2 hmk
  · exact absurd hfield hbad
  · have hpid : pid2 = pid := by rw [hp] at hp2; exact (Option.some.inj hp2).symm
    have hn : n2 = n := by rw [hN] at hN2; exact (Option.some.inj hN2).symm
    have htt3 : tt2 = "edabits" := by rw [htt] at htt2; exact (Option.some.inj htt2).symm
    subst hpid hn htt3
    rcases hcreate with ⟨_, hthrew, _⟩ | ⟨_, hmain⟩
    · exact absurd hthrew (hdir _)
    · obtain ⟨f, m1, m2, g, c, v, htrace, hout, _, hc, _, he, _⟩ :=
        generate_tuples_shape sys ps
          ⟨pid2, opt.port.getD 5000, opt.playerfile.getD "players", n2⟩
          (opt.tuple_count.getD 100000) (opt.edabit_width.getD 64) "edabits"
          (ps.construct ⟨pid2, opt.port.getD 5000, opt.playerfile.getD "players", n2⟩)
          ⟨w.fs, w.trace ++ (pre ++ [Event.names_init pid2 (opt.port.getD 5000)
            (opt.playerfile.getD "players") n2, Event.plain_player, Event.write_setup n2,
            Event.protocol_setup])⟩ (by decide)
      have hcmain : c = CheckerId.main := by
        cases c with
        | main => rfl
        | binary => exact absurd (hc.1 rfl) (by decide)
      rw [he rfl, hcmain] at htrace
      refine ⟨pre, f, m1, m2, v, hpre, ?_, ?_⟩
      · rw [hmain, network_and_generate_eq]
        exact events_since_append _ w _ (by rw [htrace]; simp only [List.append_assoc,
          List.cons_append, List.nil_append])
      · rw [hmain, network_and_generate_eq]
        exact hout

/-- Witness of C4 as amended: the request of width 200 over the 128-bit prime field. -/
theorem C4_edabit_width_not_checked_witness :
    ∃ (pre : List Event) (f : String) (m1 m2 : Msg) (v : Bool),
      (∀ e ∈ pre, e.is_local = true)
        ∧ (main (demo_system 0 true) (demo_set true) (demo_set true) wide_edabit_options
            empty_world).2.events_since empty_world
          = pre ++ [Event.names_init 0 (wide_edabit_options.port.getD 5000)
                (wide_edabit_options.playerfile.getD "players") 2,
              Event.plain_player, Event.write_setup 2, Event.protocol_setup]
            ++ [Event.open_file f ((demo_system 0 true).can_open f), Event.cout m1]
            ++ List.replicate (wide_edabit_options.tuple_count.getD 100000).toNat
                (Event.get_edabitvec true (wide_edabit_options.edabit_width.getD 64))
            ++ [Event.cout m2, Event.close_file f, Event.Check CheckerId.main v]
        ∧ (main (demo_system 0 true) (demo_set true) (demo_set true) wide_edabit_options
            empty_world).1
          = (if v then Outcome.returned else Outcome.uncaught Exception.mac_fail) :=
  C4_edabit_width_not_checked (demo_system 0 true) (demo_set true) (demo_set true)
    wide_edabit_options empty_world 2 0 rfl rfl rfl (Or.inl ⟨rfl, rfl⟩) (by decide)
    (fun _ h => CreateResult.noConfusion h)
end Klyshko
